import Mathlib

/-!
Shallow embedding of the news-aggregation core of the Agora-Logos repository:
the Article normalizer (`src/logos/src/news/ArticleData.js`), the error taxonomy
(`src/logos/src/news/errors/NewsErrors.js`), the provider adapters
(`GNewsProvider.js`, `GuardianProvider.js`, `NewsAPIProvider.js`) and the
`NewsClient` pagination/cache reconciler (`src/logos/src/news/NewsClient.js`).

JavaScript values that flow through the normalizer are modelled by `JSVal`.
Conventions of the embedding, stated once here:
* JS numbers are modelled as integers (`Int`); the code under verification only
  performs integer arithmetic on them (counts, indices, 32-bit hash steps).
* The host URL parser (`new URL(s)` succeeding or throwing) is not repository
  code; every definition that needs it takes a predicate
  `parseURL : String → Bool` as a parameter, `true` meaning the constructor
  accepts the string.
* `new Date(s)` is a pure function of `s` and never throws; a constructed date
  is modelled by the string it was built from (`JSDate`).
* JS strings are UTF-16 sequences; `charCodeAt`, `split('')` and
  `substring(0, n)` are modelled on the UTF-16 code-unit sequence of the Lean
  string (an astral code point counts as two units; a truncation that would
  split a surrogate pair stops before the pair).
* Fallible JS code (a `throw`) is modelled with `Except`; `Except.error`
  carries the thrown error.
-/

namespace AgoraLogos

/-- A JavaScript value, as far as the news core inspects one. -/
inductive JSVal where
  | undefined
  | null
  | bool (b : Bool)
  | num (n : Int)
  | str (s : String)
  | obj (fields : List (String × JSVal))
  | arr (elems : List JSVal)

/-- First-match field lookup in an object's property list. -/
def getField : List (String × JSVal) → String → JSVal
  | [], _ => .undefined
  | (k', v) :: rest, k => if k' = k then v else getField rest k

/-- Property access `v.k` (and `v?.k`): `undefined` on every non-object. -/
def JSVal.get : JSVal → String → JSVal
  | .obj fields, k => getField fields k
  | _, _ => .undefined

/-- JS truthiness. -/
def JSVal.truthy : JSVal → Bool
  | .undefined => false
  | .null => false
  | .bool b => b
  | .num n => decide (n ≠ 0)
  | .str s => !s.isEmpty
  | .obj _ => true
  | .arr _ => true

/-- `typeof v === 'string'`. -/
def JSVal.isStr : JSVal → Bool
  | .str _ => true
  | _ => false

/-- `typeof v === 'object'` and truthy (an actual object, not `null`). -/
def JSVal.isObj : JSVal → Bool
  | .obj _ => true
  | .arr _ => true
  | _ => false

/-- JS string coercion `String(v)` for the values of this embedding. An array
renders as its comma-join with `null`/`undefined` elements empty
(`Array.prototype.toString`); the embedding renders one level of array
nesting (none of the modelled code paths string-coerce an array at all, let
alone a nested one). -/
def JSVal.toJSString : JSVal → String
  | .undefined => "undefined"
  | .null => "null"
  | .bool b => cond b "true" "false"
  | .num n => toString n
  | .str s => s
  | .obj _ => "[object Object]"
  | .arr es => String.intercalate "," (es.map fun e =>
      match e with
      | .undefined => ""
      | .null => ""
      | .bool b => cond b "true" "false"
      | .num n => toString n
      | .str s => s
      | .obj _ => "[object Object]"
      | .arr _ => "")

/-- The WHATWG `WhiteSpace` ∪ `LineTerminator` character class used by JS
`String.prototype.trim` and the regex class `\s`. -/
def jsWhitespace (c : Char) : Bool :=
  c == ' ' || c == '\t' || c == '\n' || c == '\r' ||
  c.toNat == 0x0b || c.toNat == 0x0c || c.toNat == 0xa0 || c.toNat == 0x1680 ||
  (0x2000 ≤ c.toNat && c.toNat ≤ 0x200a) ||
  c.toNat == 0x2028 || c.toNat == 0x2029 || c.toNat == 0x202f ||
  c.toNat == 0x205f || c.toNat == 0x3000 || c.toNat == 0xfeff

/-- `String.prototype.trim` on the character list. -/
def jsTrimList (l : List Char) : List Char :=
  ((l.dropWhile jsWhitespace).reverse.dropWhile jsWhitespace).reverse

/-- `String.prototype.trim`. -/
def jsTrim (s : String) : String :=
  ⟨jsTrimList s.data⟩

/-- Worker for `collapseWs`: the flag records whether the previous character
was whitespace (in which case further whitespace of the same run is dropped). -/
def collapseWsAux : Bool → List Char → List Char
  | _, [] => []
  | prevWs, c :: rest =>
    if jsWhitespace c then
      if prevWs then collapseWsAux true rest
      else ' ' :: collapseWsAux true rest
    else c :: collapseWsAux false rest

/-- `.replace(/\s+/g, ' ')`: each maximal whitespace run becomes one space. -/
def collapseWs (l : List Char) : List Char :=
  collapseWsAux false l

/-- `.replace(/[\r\n\t]/g, ' ')`. -/
def replaceCrLfTab (l : List Char) : List Char :=
  l.map (fun c => if c == '\r' || c == '\n' || c == '\t' then ' ' else c)

/-- UTF-16 length of one code point. -/
def utf16Len (c : Char) : Nat :=
  if c.toNat < 0x10000 then 1 else 2

/-- `substring(0, n)` where `n` counts UTF-16 code units. -/
def utf16Take : Nat → List Char → List Char
  | _, [] => []
  | n, c :: rest =>
    if utf16Len c ≤ n then c :: utf16Take (n - utf16Len c) rest else []

/-- The UTF-16 code units of one code point (surrogate pair for astral). -/
def utf16Units (c : Char) : List Nat :=
  if c.toNat < 0x10000 then [c.toNat]
  else [0xd800 + (c.toNat - 0x10000) / 0x400, 0xdc00 + (c.toNat - 0x10000) % 0x400]

/-- `s.split('')` viewed through `charCodeAt`: the UTF-16 code units of `s`. -/
def strUtf16 (s : String) : List Nat :=
  (s.data.map utf16Units).flatten

/-- JS `ToInt32`: reduce an integer to the range `[-2^31, 2^31)`. -/
def toInt32 (x : Int) : Int :=
  let m := x % 4294967296
  if m < 2147483648 then m else m - 4294967296

/-- One step of the id hash: `a = ((a << 5) - a) + c; a & a` with `a` held
in 32-bit signed range (`a << 5` wraps to int32, `a & a` is `ToInt32`). -/
def hashStep (a : Int) (c : Nat) : Int :=
  toInt32 (toInt32 (a * 32) - a + (c : Int))

/-- `ArticleData._generateId`'s reduce over the code units of a string. -/
def jsHash (s : String) : Int :=
  (strUtf16 s).foldl hashStep 0

/-- A JS `Date` value, identified by the string it was constructed from. -/
structure JSDate where
  ofString : String
deriving DecidableEq, Repr

/-- The normalized `source` object `{name, url}`. -/
structure SourceVal where
  name : String
  url : Option String
deriving DecidableEq, Repr

/-- The canonical Article value produced by the `ArticleData` constructor.
`createdAt` (wall-clock normalization timestamp) is not modelled. -/
structure Article where
  title : String
  description : String
  content : String
  url : Option String
  urlToImage : Option String
  publishedAt : Option JSDate
  source : SourceVal
  provider : JSVal
  id : String

namespace ArticleData

/-- `ArticleData._sanitizeString`: non-strings and the empty string give `''`;
otherwise trim, collapse whitespace runs, map CR/LF/TAB to spaces (a no-op
after the collapse) and truncate to 5000 UTF-16 units. -/
def sanitizeString (v : JSVal) : String :=
  match v with
  | .str s =>
    if s.isEmpty then ""
    else ⟨utf16Take 5000 (replaceCrLfTab (collapseWs (jsTrimList s.data)))⟩
  | _ => ""

/-- `ArticleData._validateUrl` given the host URL parser: a truthy string the
parser accepts is kept, everything else becomes `null`. The `try/catch`
around `new URL(url)` is the only exception handler in the constructor. -/
def validateUrl (parseURL : String → Bool) (v : JSVal) : Option String :=
  match v with
  | .str s => if s.isEmpty then none else if parseURL s then some s else none
  | _ => none

/-- `ArticleData._validateDate`: `null` unless given a non-empty string, which
is passed to `new Date` unvalidated. -/
def validateDate (v : JSVal) : Option JSDate :=
  match v with
  | .str s => if s.isEmpty then none else some ⟨s⟩
  | _ => none

/-- `ArticleData._normalizeSource`: non-objects are replaced wholesale by the
default; otherwise each sub-field gets the same defaulting rules. -/
def normalizeSource (parseURL : String → Bool) (v : JSVal) : SourceVal :=
  if v.isObj then
    { name := let n := sanitizeString (v.get "name")
      if n.isEmpty then "Unknown" else n
      url := validateUrl parseURL (v.get "url") }
  else
    { name := "Unknown", url := none }

/-- The string the id hash runs over: `this.url + this.provider + this.title`
(JS coerces a `null` url to the text `"null"`). -/
def idInput (url : Option String) (provider : JSVal) (title : String) : String :=
  (match url with
   | some u => u
   | none => "null") ++ provider.toJSString ++ title

/-- `ArticleData._generateId`. -/
def generateId (url : Option String) (provider : JSVal) (title : String) : String :=
  provider.toJSString ++ "_" ++ toString (jsHash (idInput url provider title)).natAbs

/-- `data.provider || 'unknown'`. -/
def providerVal (v : JSVal) : JSVal :=
  if v.truthy then v else .str "unknown"

/-- The `ArticleData` constructor on an object payload `data`. Every helper is
total (the one fallible host call, `new URL`, is caught in `validateUrl`), so
construction is a total function. -/
def construct (parseURL : String → Bool) (data : JSVal) : Article :=
  let title := let t := sanitizeString (data.get "title")
    if t.isEmpty then "No title available" else t
  let url := validateUrl parseURL (data.get "url")
  let provider := providerVal (data.get "provider")
  { title := title
    description := sanitizeString (data.get "description")
    content := sanitizeString (data.get "content")
    url := url
    urlToImage := validateUrl parseURL (data.get "urlToImage")
    publishedAt := validateDate (data.get "publishedAt")
    source := normalizeSource parseURL (data.get "source")
    provider := provider
    id := generateId url provider title }

end ArticleData

/-! ## `parseInt` (used by `NewsClient` on the `page` and `limit` options) -/

/-- Decimal digit run to a natural number. -/
def digitsToNat (l : List Char) : Nat :=
  l.foldl (fun a c => a * 10 + (c.toNat - 48)) 0

/-- Value of one hexadecimal digit. -/
def hexVal (c : Char) : Nat :=
  if c.isDigit then c.toNat - 48
  else if 'a' ≤ c ∧ c ≤ 'f' then c.toNat - 87
  else if 'A' ≤ c ∧ c ≤ 'F' then c.toNat - 55
  else 0

/-- Is `c` a hexadecimal digit. -/
def isHexDigitChar (c : Char) : Bool :=
  c.isDigit || ('a' ≤ c && c ≤ 'f') || ('A' ≤ c && c ≤ 'F')

/-- Hexadecimal digit run to a natural number. -/
def hexDigitsToNat (l : List Char) : Nat :=
  l.foldl (fun a c => a * 16 + hexVal c) 0

/-- JS `parseInt(s)` with no radix argument: skip leading whitespace, optional
sign, an optional `0x`/`0X` hex prefix, then the longest digit run; `none`
models `NaN`. -/
def parseIntString (s : String) : Option Int :=
  let l := s.data.dropWhile jsWhitespace
  let sgn : Int := match l with
    | '-' :: _ => -1
    | _ => 1
  let l2 := match l with
    | '-' :: rest => rest
    | '+' :: rest => rest
    | _ => l
  match l2 with
  | '0' :: 'x' :: rest =>
    let ds := rest.takeWhile isHexDigitChar
    if ds.isEmpty then none else some (sgn * (hexDigitsToNat ds : Int))
  | '0' :: 'X' :: rest =>
    let ds := rest.takeWhile isHexDigitChar
    if ds.isEmpty then none else some (sgn * (hexDigitsToNat ds : Int))
  | _ =>
    let ds := l2.takeWhile Char.isDigit
    if ds.isEmpty then none else some (sgn * (digitsToNat ds : Int))

/-- `parseInt(v)`: the argument is first coerced to a string. -/
def jsParseInt (v : JSVal) : Option Int :=
  parseIntString v.toJSString

/-- Is this value `undefined` (destructuring defaults apply exactly then). -/
def JSVal.isUndefined : JSVal → Bool
  | .undefined => true
  | _ => false

/-! ## Error taxonomy (`src/logos/src/news/errors/NewsErrors.js`)

Each constructor is one error class; `jsError` is a plain JavaScript `Error`
(no `NewsError` subclass, hence no `statusCode` own-property). -/

inductive NewsErr where
  | validation (message : String)
  | invalidQuery (value : String) (reason : String)
  | providerNotFound (name : String) (available : List String)
  | providerConfiguration (message : String)
  | noProvidersAvailable
  | rateLimit (provider : String)
  | externalAPIError (provider : String) (origMessage : String)
  | jsError (message : String)
deriving DecidableEq, Repr

namespace NewsErr

/-- The `statusCode` property; `none` for a plain `Error`. -/
def statusCode : NewsErr → Option Nat
  | .validation _ => some 400
  | .invalidQuery _ _ => some 400
  | .providerNotFound _ _ => some 404
  | .providerConfiguration _ => some 503
  | .noProvidersAvailable => some 503
  | .rateLimit _ => some 429
  | .externalAPIError _ _ => some 502
  | .jsError _ => none

/-- The `message` property, as built by each class constructor. -/
def message : NewsErr → String
  | .validation m => m
  | .invalidQuery v reason => reason ++ ": '" ++ v ++ "'"
  | .providerNotFound n avail =>
    if avail.isEmpty then "Provider '" ++ n ++ "' not found"
    else "Provider '" ++ n ++ "' not found. Available providers: " ++
      String.intercalate ", " avail
  | .providerConfiguration m => m
  | .noProvidersAvailable =>
    "No news providers are configured. Please set API keys in environment variables."
  | .rateLimit p => "Rate limit exceeded for " ++ p
  | .externalAPIError p orig => "External API error from " ++ p ++ ": " ++ orig
  | .jsError m => m

/-- Is the error an `ExternalAPIError`. -/
def isExternalAPIError : NewsErr → Bool
  | .externalAPIError _ _ => true
  | _ => false

end NewsErr

/-! ## `NewsClient` (`src/logos/src/news/NewsClient.js`)

The client is generic in the article payload type `A` (it only slices and
counts the lists a provider returns) and in the type `σ` of the residual
search options that enter the cache key (`{...searchOptions}`; the JSON
serialization of the key object is injective on its three components, so the
key is modelled as the triple itself). A provider's `searchNews` call is an
oracle argument `fetch : String → Nat → Except NewsErr (ProviderEnvelope A)`
taking the trimmed query and the `max` fetch size. -/

/-- The normalized envelope a provider returns (`status` is always `'ok'`;
`actualResults` is only present on the GNews paths). -/
structure ProviderEnvelope (A : Type) where
  status : String
  totalResults : Nat
  actualResults : Option Nat
  provider : String
  articles : List A
deriving Repr

/-- One value of `NewsClient.articleCache`. -/
structure CacheEntry (A : Type) where
  articles : List A
  totalArticles : Nat
  lastFetchSize : Nat
  hasMore : Bool
deriving Repr

/-- The entry installed on first sight of a key. -/
def emptyEntry {A : Type} : CacheEntry A :=
  { articles := [], totalArticles := 0, lastFetchSize := 0, hasMore := true }

/-- A populated entry: the at-most-one-fetch guard
`cache.articles.length === 0 && cache.hasMore` is false. -/
def populatedEntry {A : Type} (e : CacheEntry A) : Prop :=
  e.articles ≠ [] ∨ e.hasMore = false

/-- The cache key `JSON.stringify({query, provider, ...searchOptions})`,
modelled by its components. -/
structure CacheKey (σ : Type) where
  query : String
  provider : String
  rest : σ
deriving DecidableEq

/-- The mutable state of a `NewsClient` instance. -/
structure ClientState (σ A : Type) where
  providers : List String
  defaultProvider : Option String
  articleCache : List (CacheKey σ × CacheEntry A)

/-- `Map.prototype.get`, as an association-list lookup. -/
def mapGet {κ β : Type} [DecidableEq κ] : List (κ × β) → κ → Option β
  | [], _ => none
  | (k', v) :: rest, k => if k' = k then some v else mapGet rest k

/-- `Map.prototype.set`: replace in place, else append. -/
def mapSet {κ β : Type} [DecidableEq κ] : List (κ × β) → κ → β → List (κ × β)
  | [], k, v => [(k, v)]
  | (k', v') :: rest, k, v =>
    if k' = k then (k, v) :: rest else (k', v') :: mapSet rest k v

/-- Pagination metadata block of every envelope. -/
structure Pagination where
  currentPage : Nat
  limit : Nat
  totalResults : Nat
  actualResults : Nat
  totalPages : Nat
  hasNextPage : Bool
  hasPreviousPage : Bool
  nextPage : Option Nat
  previousPage : Option Nat
  clientSidePagination : Bool
deriving Repr

/-- The envelope `searchNews` returns. -/
structure Response (A : Type) where
  status : String
  provider : String
  articles : List A
  totalResults : Nat
  actualResults : Nat
  pagination : Pagination
deriving Repr

/-- The envelope `getTopHeadlines` returns: the provider envelope spread
unchanged, plus the pagination block. -/
structure HeadlinesResponse (A : Type) where
  status : String
  totalResults : Nat
  actualResults : Option Nat
  provider : String
  articles : List A
  pagination : Pagination
deriving Repr

/-- The outcome of one `searchNews` call: its result (the envelope or the
thrown error), the cache state it leaves behind, and how many upstream
provider fetches it performed. -/
structure SearchStep (σ A : Type) where
  result : Except NewsErr (Response A)
  state : ClientState σ A
  fetches : Nat

namespace NewsClient

variable {σ A : Type} [DecidableEq σ]

/-- `NewsClient._getProvider`. `none` stands for an absent (or falsy)
requested name, which falls back to the default provider. -/
def getProvider (st : ClientState σ A) (name : Option String) : Except NewsErr String :=
  match (match name with
         | some n => some n
         | none => st.defaultProvider) with
  | none => .error .noProvidersAvailable
  | some pn =>
    if pn ∈ st.providers then .ok pn
    else .error (.providerNotFound pn st.providers)

/-- Validation of the `page` option: `parseInt`, then reject `NaN` and
values below 1. -/
def checkPage (pv : JSVal) : Except NewsErr Nat :=
  match jsParseInt pv with
  | none => .error (.invalidQuery pv.toJSString "Page must be a positive integer")
  | some n =>
    if n < 1 then .error (.invalidQuery pv.toJSString "Page must be a positive integer")
    else .ok n.toNat

/-- Validation of the `limit` option on the search path. -/
def checkLimit (lv : JSVal) : Except NewsErr Nat :=
  match jsParseInt lv with
  | none => .error (.invalidQuery lv.toJSString "Limit must be between 1 or more")
  | some n =>
    if n < 1 then .error (.invalidQuery lv.toJSString "Limit must be between 1 or more")
    else .ok n.toNat

/-- Validation of the `limit` option on the headlines path (its message
differs from the search path's). -/
def checkLimitHeadlines (lv : JSVal) : Except NewsErr Nat :=
  match jsParseInt lv with
  | none => .error (.invalidQuery lv.toJSString "Limit must be 1 or more")
  | some n =>
    if n < 1 then .error (.invalidQuery lv.toJSString "Limit must be 1 or more")
    else .ok n.toNat

/-- `NewsClient._createPaginatedResponse`. -/
def createPaginatedResponse (articles : List A) (totalResults p l : Nat)
    (hasNextPage : Bool) (provider : String) : Response A :=
  let actualResults := articles.length
  let totalPages := if totalResults > 0 then (totalResults + l - 1) / l else 1
  { status := "ok"
    provider := provider
    articles := articles
    totalResults := totalResults
    actualResults := actualResults
    pagination :=
      { currentPage := p
        limit := l
        totalResults := totalResults
        actualResults := actualResults
        totalPages := totalPages
        hasNextPage := hasNextPage
        hasPreviousPage := decide (p > 1)
        nextPage := if hasNextPage then some (p + 1) else none
        previousPage := if p > 1 then some (p - 1) else none
        clientSidePagination := true } }

/-- The tail of `searchNews` after the cache is up to date: slice the page
out of the entry and compute totals and `hasNextPage` per provider kind. -/
def finishSearch (entry : CacheEntry A) (name : String) (p l : Nat) : Response A :=
  let startIndex := (p - 1) * l
  let endIndex := startIndex + l
  let pageArticles := (entry.articles.drop startIndex).take l
  if name = "gnews" then
    createPaginatedResponse pageArticles entry.articles.length p l
      (decide (entry.articles.length > endIndex)) name
  else if entry.totalArticles > 0 then
    createPaginatedResponse pageArticles entry.totalArticles p l
      (decide (endIndex < entry.totalArticles)) name
  else
    let hasNext := decide (entry.articles.length > endIndex) || entry.hasMore
    let tot := if hasNext then max (entry.articles.length * 2) (endIndex + l)
               else entry.articles.length
    createPaginatedResponse pageArticles tot p l hasNext name

/-- The cache-and-fetch section of `searchNews`, entered once the query, the
pagination numbers and the provider have all been resolved. -/
def searchWithCache (st : ClientState σ A) (tq name : String) (p l : Nat) (rest : σ)
    (fetch : String → Nat → Except NewsErr (ProviderEnvelope A)) : SearchStep σ A :=
  let key : CacheKey σ := ⟨tq, name, rest⟩
  let cache0 := (mapGet st.articleCache key).getD emptyEntry
  let st1 : ClientState σ A :=
    if (mapGet st.articleCache key).isSome then st
    else { st with articleCache := mapSet st.articleCache key emptyEntry }
  let endIndex := (p - 1) * l + l
  if cache0.articles.length = 0 ∧ cache0.hasMore = true then
    let fetchSize := if name = "gnews" then 10 else max endIndex (l * 2)
    match fetch tq fetchSize with
    | .error e => ⟨.error e, st1, 1⟩
    | .ok result =>
      let entry : CacheEntry A :=
        { articles := result.articles
          totalArticles := result.totalResults
          lastFetchSize := fetchSize
          hasMore := if name = "gnews" then false
                     else decide (result.articles.length ≥ fetchSize) }
      ⟨.ok (finishSearch entry name p l),
        { st1 with articleCache := mapSet st1.articleCache key entry }, 1⟩
  else
    ⟨.ok (finishSearch cache0 name p l), st1, 0⟩

/-- The residual search options of one call (`provider`, `page`, `limit` are
destructured away; `rest` is everything else, which enters the cache key). -/
structure SearchOpts (σ : Type) where
  provider : Option String
  page : JSVal
  limit : JSVal
  rest : σ

/-- The `page` option after the destructuring default `page = 1`. -/
def pageValOf (opts : SearchOpts σ) : JSVal :=
  if opts.page.isUndefined then JSVal.num 1 else opts.page

/-- The `limit` option after the destructuring default `limit = 10`. -/
def limitValOf (opts : SearchOpts σ) : JSVal :=
  if opts.limit.isUndefined then JSVal.num 10 else opts.limit

/-- `NewsClient.searchNews`. The query is an optional string (`none` models
`null`/`undefined`). Validation order follows the source: query, then `page`,
then `limit`, then provider resolution, then the cache section. -/
def searchNews (st : ClientState σ A) (query : Option String) (opts : SearchOpts σ)
    (fetch : String → Nat → Except NewsErr (ProviderEnvelope A)) : SearchStep σ A :=
  match query with
  | none => ⟨.error (.invalidQuery "" "Search query is required and must be non-empty"), st, 0⟩
  | some q =>
    if (jsTrim q).isEmpty then
      ⟨.error (.invalidQuery q "Search query is required and must be non-empty"), st, 0⟩
    else
      match checkPage (pageValOf opts) with
      | .error e => ⟨.error e, st, 0⟩
      | .ok p =>
        match checkLimit (limitValOf opts) with
        | .error e => ⟨.error e, st, 0⟩
        | .ok l =>
          match getProvider st opts.provider with
          | .error e => ⟨.error e, st, 0⟩
          | .ok name => searchWithCache st (jsTrim q) name p l opts.rest fetch

/-- `NewsClient._addPaginationMetadata` (headlines path). -/
def addPaginationMetadata (result : ProviderEnvelope A) (p l : Nat) : HeadlinesResponse A :=
  let tot := if result.totalResults ≠ 0 then result.totalResults else result.articles.length
  let act := match result.actualResults with
    | some n => if n ≠ 0 then n else result.articles.length
    | none => result.articles.length
  let totalPages := (tot + l - 1) / l
  let hasNextPage := decide (p < totalPages)
  { status := result.status
    totalResults := result.totalResults
    actualResults := result.actualResults
    provider := result.provider
    articles := result.articles
    pagination :=
      { currentPage := p
        limit := l
        totalResults := tot
        actualResults := act
        totalPages := totalPages
        hasNextPage := hasNextPage
        hasPreviousPage := decide (p > 1)
        nextPage := if hasNextPage then some (p + 1) else none
        previousPage := if p > 1 then some (p - 1) else none
        clientSidePagination := false } }

/-- `NewsClient.getTopHeadlines`. The provider's headlines call is an oracle
taking `max` and `offset`. The cache is not involved. -/
def getTopHeadlines (st : ClientState σ A) (opts : SearchOpts σ)
    (fetch : Nat → Nat → Except NewsErr (ProviderEnvelope A)) :
    Except NewsErr (HeadlinesResponse A) :=
  match checkPage (pageValOf opts) with
  | .error e => .error e
  | .ok p =>
    match checkLimitHeadlines (limitValOf opts) with
    | .error e => .error e
    | .ok l =>
      match getProvider st opts.provider with
      | .error e => .error e
      | .ok _ =>
        match fetch l ((p - 1) * l) with
        | .error e => .error e
        | .ok r => .ok (addPaginationMetadata r p l)

/-- `NewsClient.clearCache`. -/
def clearCache (st : ClientState σ A) : ClientState σ A :=
  { st with articleCache := [] }

/-- Run a sequence of page requests for one query (same query text, same
requested provider, same residual options; each request brings its own
`page`, `limit` and provider oracle), threading the client state. Returns
the step of every call and the final state. -/
def runSearchSeq (st : ClientState σ A) (query : Option String)
    (provider : Option String) (rest : σ) :
    List (JSVal × JSVal × (String → Nat → Except NewsErr (ProviderEnvelope A))) →
    List (SearchStep σ A) × ClientState σ A
  | [] => ([], st)
  | (pg, lm, f) :: more =>
    let step := searchNews st query ⟨provider, pg, lm, rest⟩ f
    let rec' := runSearchSeq step.state query provider rest more
    (step :: rec'.1, rec'.2)

end NewsClient

/-! ## Provider adapters

Each provider method is modelled with the external interaction as an oracle:
for GNews the library call `this.client.search(...)` / `topHeadlines(...)`
(which either resolves to a response value or rejects with an error message),
for NewsAPI and Guardian the `fetch` transport (`Transport` below: a network
rejection, or an HTTP response whose body JSON-parse may itself fail). -/

/-- The closed `SortBy` vocabulary (`enums.js`). -/
def sortByValues : List String := ["relevance", "date", "publishedAt"]

/-- The closed `SearchInOptions` vocabulary. -/
def searchInValues : List String := ["title", "description", "content"]

/-- The closed `NewsCategory` vocabulary. -/
def categoryValues : List String :=
  ["general", "business", "entertainment", "health", "science", "sports", "technology"]

/-- Message of the enum-validation errors thrown by `_validateOptions`. -/
def enumErrMsg (kind : String) (vals : List String) : String :=
  "Invalid " ++ kind ++ " option. Must be one of: " ++ String.intercalate ", " vals

/-- An option value fails `opt && !values.includes(opt)` (absent and falsy
values skip the check). -/
def enumOptionBad (vals : List String) (o : Option String) : Bool :=
  match o with
  | some s => !s.isEmpty && !vals.contains s
  | none => false

/-- `response.articles` style access: the element list when the value is an
array, `[]` when it is absent or falsy (`raw || []`). -/
def getArray : JSVal → List JSVal
  | .arr es => es
  | _ => []

/-- `totalArticles || 0` for a count field. -/
def jsCountOr0 : JSVal → Nat
  | .num n => n.toNat
  | _ => 0

/-- `v || dflt` picking the raw value when truthy. -/
def jsOr (v dflt : JSVal) : JSVal :=
  if v.truthy then v else dflt

/-- `ArticleData` (src/logos/src/news/ArticleData.js) declares no `isValid`
method, and the class has no superclass, so the provider filter callback
`article => article.isValid()` throws
`TypeError: article.isValid is not a function` the first time it runs. -/
def callIsValid (_a : Article) : Except String Bool :=
  .error "article.isValid is not a function"

/-- `Array.prototype.filter` with a callback that may throw: elements are
visited left to right and the first exception aborts the call. -/
def jsFilter {α : Type} (f : α → Except String Bool) : List α → Except String (List α)
  | [] => .ok []
  | x :: xs => do
    let b ← f x
    let rest ← jsFilter f xs
    pure (if b then x :: rest else rest)

/-- One `fetch(...)` interaction as the provider try-blocks see it. -/
inductive Transport where
  | networkError (msg : String)
  | response (ok : Bool) (status : Nat) (statusText : String) (body : Except String JSVal)

/-- The shared try-block prologue of the NewsAPI and Guardian methods:
`fetch`, the `response.ok` check (throwing
`"<name> request failed: <status> <statusText>"`), then `response.json()`.
The result is the parsed body or the message of whichever step threw. -/
def runTransport (requestFailMsg : String) (t : Transport) : Except String JSVal :=
  match t with
  | .networkError m => .error m
  | .response ok status statusText body =>
    if ok then body
    else .error (requestFailMsg ++ ": " ++ toString status ++ " " ++ statusText)

namespace GNewsProvider

/-- GNews raw article to the `ArticleData` constructor payload
(`GNewsProvider.normalizeResponse`'s mapping). -/
def rawToData (a : JSVal) : JSVal :=
  .obj [("title", a.get "title"),
        ("description", a.get "description"),
        ("content", a.get "content"),
        ("url", a.get "url"),
        ("urlToImage", a.get "image"),
        ("publishedAt", a.get "publishedAt"),
        ("source", .obj [("name", jsOr ((a.get "source").get "name") (.str "Unknown")),
                         ("url", jsOr ((a.get "source").get "url") .null)]),
        ("provider", .str "gnews")]

/-- `GNewsProvider.normalizeResponse` (its `requestedMax` parameter is unused
in the source body and therefore omitted): no validity filter, reported
`totalResults` is the upstream `totalArticles || 0`. -/
def normalizeResponse (parseURL : String → Bool) (response : JSVal) :
    ProviderEnvelope Article :=
  let articles := (getArray (response.get "articles")).map
    (fun a => ArticleData.construct parseURL (rawToData a))
  { status := "ok"
    totalResults := jsCountOr0 (response.get "totalArticles")
    actualResults := some articles.length
    provider := "gnews"
    articles := articles }

/-- `GNewsProvider.searchNews`: configuration check, enum validation (typed
`ValidationError`s, outside the try-block), then the library call; any error
thrown inside the try-block is wrapped as `ExternalAPIError('GNews', error)`. -/
def searchNews (hasApiKey : Bool) (sortBy searchIn : Option String)
    (lib : Except String JSVal) (parseURL : String → Bool) :
    Except NewsErr (ProviderEnvelope Article) :=
  if !hasApiKey then
    .error (.providerConfiguration "GNews provider is not properly configured")
  else if enumOptionBad sortByValues sortBy then
    .error (.validation (enumErrMsg "sortBy" sortByValues))
  else if enumOptionBad searchInValues searchIn then
    .error (.validation (enumErrMsg "searchIn" searchInValues))
  else
    match lib with
    | .error e => .error (.externalAPIError "GNews" e)
    | .ok response => .ok (normalizeResponse parseURL response)

/-- `GNewsProvider.getTopHeadlines`: same wrapping with the `category` enum
validated instead. -/
def getTopHeadlines (hasApiKey : Bool) (category : Option String)
    (lib : Except String JSVal) (parseURL : String → Bool) :
    Except NewsErr (ProviderEnvelope Article) :=
  if !hasApiKey then
    .error (.providerConfiguration "GNews provider is not properly configured")
  else if enumOptionBad categoryValues category then
    .error (.validation (enumErrMsg "category" categoryValues))
  else
    match lib with
    | .error e => .error (.externalAPIError "GNews" e)
    | .ok response => .ok (normalizeResponse parseURL response)

end GNewsProvider

namespace NewsAPIProvider

/-- NewsAPI raw article to the `ArticleData` constructor payload. -/
def rawToData (a : JSVal) : JSVal :=
  .obj [("title", a.get "title"),
        ("description", a.get "description"),
        ("content", a.get "content"),
        ("url", a.get "url"),
        ("urlToImage", a.get "urlToImage"),
        ("publishedAt", a.get "publishedAt"),
        ("source", a.get "source"),
        ("provider", .str "newsapi")]

/-- `NewsAPIProvider.normalizeResponse`: map then
`.filter(article => article.isValid())`; the filter call throws (see
`callIsValid`) whenever at least one article was mapped. -/
def normalizeResponse (parseURL : String → Bool) (response : JSVal) :
    Except String (ProviderEnvelope Article) := do
  let articles := (getArray (response.get "articles")).map
    (fun a => ArticleData.construct parseURL (rawToData a))
  let filtered ← jsFilter callIsValid articles
  pure { status := "ok"
         totalResults := filtered.length
         actualResults := none
         provider := "newsapi"
         articles := filtered }

/-- `NewsAPIProvider.searchNews`: unconfigured use and invalid enum options
throw plain `Error`s; everything that fails inside the try-block (transport,
JSON parse, normalize) is re-thrown as the plain
`Error('NewsAPI search failed: ...')` — not an `ExternalAPIError`. -/
def searchNews (isConfigured : Bool) (sortBy : Option String)
    (t : Transport) (parseURL : String → Bool) :
    Except NewsErr (ProviderEnvelope Article) :=
  if !isConfigured then
    .error (.jsError "NewsAPI provider is not properly configured")
  else if enumOptionBad sortByValues sortBy then
    .error (.jsError (enumErrMsg "sortBy" sortByValues))
  else
    match (do normalizeResponse parseURL (← runTransport "NewsAPI request failed" t)) with
    | .error m => .error (.jsError ("NewsAPI search failed: " ++ m))
    | .ok env => .ok env

/-- `NewsAPIProvider.getTopHeadlines`: same shape with the `category` enum
and the `'NewsAPI top headlines failed: '` wrapper. -/
def getTopHeadlines (isConfigured : Bool) (category : Option String)
    (t : Transport) (parseURL : String → Bool) :
    Except NewsErr (ProviderEnvelope Article) :=
  if !isConfigured then
    .error (.jsError "NewsAPI provider is not properly configured")
  else if enumOptionBad categoryValues category then
    .error (.jsError (enumErrMsg "category" categoryValues))
  else
    match (do normalizeResponse parseURL (← runTransport "NewsAPI request failed" t)) with
    | .error m => .error (.jsError ("NewsAPI top headlines failed: " ++ m))
    | .ok env => .ok env

end NewsAPIProvider

namespace GuardianProvider

/-- Guardian raw article to the `ArticleData` constructor payload. -/
def rawToData (a : JSVal) : JSVal :=
  .obj [("title", jsOr ((a.get "fields").get "headline") (a.get "webTitle")),
        ("description", jsOr ((a.get "fields").get "trailText") (.str "")),
        ("content", jsOr ((a.get "fields").get "body") (.str "")),
        ("url", a.get "webUrl"),
        ("urlToImage", (a.get "fields").get "thumbnail"),
        ("publishedAt", a.get "webPublicationDate"),
        ("source", .obj [("name", .str "The Guardian"),
                         ("url", .str "https://www.theguardian.com")]),
        ("provider", .str "guardian")]

/-- `GuardianProvider.normalizeResponse`: map `response.response?.results`
then the same throwing `isValid` filter as NewsAPI. -/
def normalizeResponse (parseURL : String → Bool) (response : JSVal) :
    Except String (ProviderEnvelope Article) := do
  let articles := (getArray ((response.get "response").get "results")).map
    (fun a => ArticleData.construct parseURL (rawToData a))
  let filtered ← jsFilter callIsValid articles
  pure { status := "ok"
         totalResults := filtered.length
         actualResults := none
         provider := "guardian"
         articles := filtered }

/-- `GuardianProvider.searchNews`: same plain-`Error` wrapping as NewsAPI,
with the `'Guardian search failed: '` prefix. -/
def searchNews (isConfigured : Bool) (sortBy : Option String)
    (t : Transport) (parseURL : String → Bool) :
    Except NewsErr (ProviderEnvelope Article) :=
  if !isConfigured then
    .error (.jsError "Guardian provider is not properly configured")
  else if enumOptionBad sortByValues sortBy then
    .error (.jsError (enumErrMsg "sortBy" sortByValues))
  else
    match (do normalizeResponse parseURL (← runTransport "Guardian request failed" t)) with
    | .error m => .error (.jsError ("Guardian search failed: " ++ m))
    | .ok env => .ok env

/-- `GuardianProvider.getTopHeadlines`. -/
def getTopHeadlines (isConfigured : Bool) (category : Option String)
    (t : Transport) (parseURL : String → Bool) :
    Except NewsErr (ProviderEnvelope Article) :=
  if !isConfigured then
    .error (.jsError "Guardian provider is not properly configured")
  else if enumOptionBad categoryValues category then
    .error (.jsError (enumErrMsg "category" categoryValues))
  else
    match (do normalizeResponse parseURL (← runTransport "Guardian request failed" t)) with
    | .error m => .error (.jsError ("Guardian top headlines failed: " ++ m))
    | .ok env => .ok env

end GuardianProvider

/-! ## Definitions supporting the claim statements -/

/-- Internal consistency of a pagination block (§8 of the spec): `totalPages`
is the ceiling of `totalResults / limit` whenever `totalResults > 0`,
`hasPreviousPage` is exactly `currentPage > 1`, and `nextPage` is
`currentPage + 1` exactly when `hasNextPage` (else `null`). For naturals with
`limit ≥ 1`, `(t + limit - 1) / limit` is `⌈t / limit⌉`. -/
def pagConsistent (pg : Pagination) : Prop :=
  (0 < pg.totalResults → pg.totalPages = (pg.totalResults + pg.limit - 1) / pg.limit) ∧
  pg.hasPreviousPage = decide (pg.currentPage > 1) ∧
  (pg.nextPage = some (pg.currentPage + 1) ↔ pg.hasNextPage = true)

/-- A whitespace run (possibly empty). -/
def allWsRun (l : List Char) : Prop :=
  ∀ c ∈ l, jsWhitespace c = true

/-- A word: a non-empty run of non-whitespace characters. -/
def wordRun (l : List Char) : Prop :=
  l ≠ [] ∧ ∀ c ∈ l, jsWhitespace c = false

/-- A word followed by alternating separator/word segments:
`w₁ ++ s₁ ++ w₂ ++ s₂ ++ w₃ ++ ...` (each piece is `(separator, word)`). -/
def assembleWords (w1 : List Char) (pieces : List (List Char × List Char)) : List Char :=
  w1 ++ (pieces.map (fun p => p.1 ++ p.2)).flatten

/-- A full title: leading whitespace, the word/separator core, trailing
whitespace. -/
def assembleTitle (lead w1 : List Char) (pieces : List (List Char × List Char))
    (trail : List Char) : List Char :=
  lead ++ assembleWords w1 pieces ++ trail

/-- Well-formedness of a title decomposition: whitespace-only lead and trail,
words non-empty and whitespace-free, every internal separator a non-empty
whitespace run. -/
def goodTitle (lead w1 : List Char) (pieces : List (List Char × List Char))
    (trail : List Char) : Prop :=
  allWsRun lead ∧ allWsRun trail ∧ wordRun w1 ∧
  ∀ p ∈ pieces, (p.1 ≠ [] ∧ allWsRun p.1) ∧ wordRun p.2

/-- Two strings differ only in leading/trailing whitespace or in the extent
of internal whitespace runs: both are whitespace-only, or both decompose into
the same sequence of words separated by (possibly different) non-empty
whitespace runs. -/
def SameWordSeq (t1 t2 : String) : Prop :=
  (allWsRun t1.data ∧ allWsRun t2.data) ∨
  ∃ w1 pieces1 pieces2 lead1 trail1 lead2 trail2,
    t1.data = assembleTitle lead1 w1 pieces1 trail1 ∧
    t2.data = assembleTitle lead2 w1 pieces2 trail2 ∧
    pieces1.map Prod.snd = pieces2.map Prod.snd ∧
    goodTitle lead1 w1 pieces1 trail1 ∧ goodTitle lead2 w1 pieces2 trail2

/-! Concrete fixtures used by witnesses and counterexamples. -/

/-- A client with the GNews provider registered and an empty cache. -/
def demoState : ClientState Unit Nat :=
  { providers := ["gnews"], defaultProvider := some "gnews", articleCache := [] }

/-- A provider oracle that always returns 8 articles (ceiling-capped fetch). -/
def demoFetch8 : String → Nat → Except NewsErr (ProviderEnvelope Nat) :=
  fun _ _ => .ok { status := "ok", totalResults := 54321, actualResults := some 8,
                   provider := "gnews", articles := [0, 1, 2, 3, 4, 5, 6, 7] }

/-- Search options against the default provider with unit residual options. -/
def demoOpts (pg lm : JSVal) : NewsClient.SearchOpts Unit :=
  { provider := none, page := pg, limit := lm, rest := () }

/-- The first scenario call: query `"climate"`, page 1, limit 5. -/
def demoStep1 : SearchStep Unit Nat :=
  NewsClient.searchNews demoState (some "climate") (demoOpts (.num 1) (.num 5)) demoFetch8

/-- The cache entry the first scenario call stores under its key. -/
def demoEntry8 : CacheEntry Nat :=
  { articles := [0, 1, 2, 3, 4, 5, 6, 7], totalArticles := 54321,
    lastFetchSize := 10, hasMore := false }

/-- A URL parser that rejects everything. -/
def parseNone : String → Bool := fun _ => false

/-- A URL parser that accepts everything. -/
def parseAll : String → Bool := fun _ => true

/-- A raw payload whose `title`, `description`, `url`, `urlToImage`,
`publishedAt` and `source` are all malformed (and whose `content` is
absent). -/
def demoBadPayload : JSVal :=
  .obj [("title", .num 7), ("description", .bool true), ("url", .str "::::"),
        ("urlToImage", .null), ("publishedAt", .num 5), ("source", .str "x"),
        ("provider", .str "demo")]

/-- A well-formed payload. -/
def demoPayloadA : JSVal :=
  .obj [("title", .str "Hello"), ("description", .str "one"),
        ("url", .str "https://example.com/a"), ("provider", .str "gnews")]

/-- The same payload with a different description (the id must not change). -/
def demoPayloadB : JSVal :=
  .obj [("title", .str "Hello"), ("description", .str "two"),
        ("url", .str "https://example.com/a"), ("provider", .str "gnews")]

/-- A payload whose title carries stray whitespace. -/
def demoPayloadW1 : JSVal :=
  .obj [("title", .str "  hello \t  world "),
        ("url", .str "https://example.com/a"), ("provider", .str "gnews")]

/-- The same payload with the title's whitespace normalized. -/
def demoPayloadW2 : JSVal :=
  .obj [("title", .str "hello world"),
        ("url", .str "https://example.com/a"), ("provider", .str "gnews")]

/-! ## Shared lemmas about the client -/

theorem mapGet_mapSet_self {κ β : Type} [DecidableEq κ] (m : List (κ × β)) (k : κ) (v : β) :
    mapGet (mapSet m k v) k = some v := by
  induction m with
  | nil => simp [mapGet, mapSet]
  | cons kv rest ih =>
    obtain ⟨k', v'⟩ := kv
    by_cases h : k' = k
    · subst h; simp [mapGet, mapSet]
    · simp [mapGet, mapSet, h, ih]

theorem checkPage_ok_pos {pv : JSVal} {p : Nat}
    (h : NewsClient.checkPage pv = .ok p) : 1 ≤ p := by
  cases hj : jsParseInt pv with
  | none => simp [NewsClient.checkPage, hj] at h
  | some n =>
    simp only [NewsClient.checkPage, hj] at h
    by_cases hn : n < 1
    · rw [if_pos hn] at h; exact absurd h (by simp)
    · rw [if_neg hn] at h
      have := Except.ok.inj h
      omega

theorem checkLimit_ok_pos {lv : JSVal} {l : Nat}
    (h : NewsClient.checkLimit lv = .ok l) : 1 ≤ l := by
  cases hj : jsParseInt lv with
  | none => simp [NewsClient.checkLimit, hj] at h
  | some n =>
    simp only [NewsClient.checkLimit, hj] at h
    by_cases hn : n < 1
    · rw [if_pos hn] at h; exact absurd h (by simp)
    · rw [if_neg hn] at h
      have := Except.ok.inj h
      omega

theorem checkLimitHeadlines_ok_pos {lv : JSVal} {l : Nat}
    (h : NewsClient.checkLimitHeadlines lv = .ok l) : 1 ≤ l := by
  cases hj : jsParseInt lv with
  | none => simp [NewsClient.checkLimitHeadlines, hj] at h
  | some n =>
    simp only [NewsClient.checkLimitHeadlines, hj] at h
    by_cases hn : n < 1
    · rw [if_pos hn] at h; exact absurd h (by simp)
    · rw [if_neg hn] at h
      have := Except.ok.inj h
      omega

theorem pagConsistent_createPaginatedResponse {A : Type} (articles : List A)
    (tot p l : Nat) (hnp : Bool) (prov : String) :
    pagConsistent (NewsClient.createPaginatedResponse articles tot p l hnp prov).pagination := by
  refine ⟨?_, rfl, ?_⟩
  · intro h
    simp only [NewsClient.createPaginatedResponse] at h ⊢
    split
    · rfl
    · exact absurd h (by assumption)
  · cases hnp <;> simp [NewsClient.createPaginatedResponse]

theorem pagConsistent_finishSearch {A : Type} (entry : CacheEntry A)
    (name : String) (p l : Nat) :
    pagConsistent (NewsClient.finishSearch entry name p l).pagination := by
  simp only [NewsClient.finishSearch]
  split
  · exact pagConsistent_createPaginatedResponse _ _ _ _ _ _
  · split
    · exact pagConsistent_createPaginatedResponse _ _ _ _ _ _
    · exact pagConsistent_createPaginatedResponse _ _ _ _ _ _

theorem finishSearch_fields {A : Type} (entry : CacheEntry A)
    (name : String) (p l : Nat) :
    (NewsClient.finishSearch entry name p l).pagination.currentPage = p ∧
    (NewsClient.finishSearch entry name p l).pagination.limit = l ∧
    (NewsClient.finishSearch entry name p l).articles =
      (entry.articles.drop ((p - 1) * l)).take l := by
  simp only [NewsClient.finishSearch]
  split
  · exact ⟨rfl, rfl, rfl⟩
  · split
    · exact ⟨rfl, rfl, rfl⟩
    · exact ⟨rfl, rfl, rfl⟩

theorem searchNews_ok_shape {σ A : Type} [DecidableEq σ]
    {st : ClientState σ A} {q : Option String} {opts : NewsClient.SearchOpts σ}
    {fetch : String → Nat → Except NewsErr (ProviderEnvelope A)} {resp : Response A}
    (h : (NewsClient.searchNews st q opts fetch).result = .ok resp) :
    ∃ s p l name, q = some s ∧ (jsTrim s).isEmpty = false ∧
      NewsClient.checkPage (NewsClient.pageValOf opts) = .ok p ∧
      NewsClient.checkLimit (NewsClient.limitValOf opts) = .ok l ∧
      NewsClient.getProvider st opts.provider = .ok name ∧
      NewsClient.searchNews st q opts fetch =
        NewsClient.searchWithCache st (jsTrim s) name p l opts.rest fetch := by
  cases q with
  | none => simp [NewsClient.searchNews] at h
  | some s =>
    by_cases hq : (jsTrim s).isEmpty = true
    · simp [NewsClient.searchNews, hq] at h
    · cases hp : NewsClient.checkPage (NewsClient.pageValOf opts) with
      | error e => simp [NewsClient.searchNews, hq, hp] at h
      | ok p =>
        cases hl : NewsClient.checkLimit (NewsClient.limitValOf opts) with
        | error e => simp [NewsClient.searchNews, hq, hp, hl] at h
        | ok l =>
          cases hn : NewsClient.getProvider st opts.provider with
          | error e => simp [NewsClient.searchNews, hq, hp, hl, hn] at h
          | ok name =>
            refine ⟨s, p, l, name, rfl, by simpa using hq, rfl, rfl, rfl, ?_⟩
            simp [NewsClient.searchNews, hq, hp, hl, hn]

theorem fetchEntry_populated {A : Type} (r : ProviderEnvelope A)
    (name : String) (fs : Nat) (hfs : 1 ≤ fs) :
    populatedEntry (A := A)
      { articles := r.articles, totalArticles := r.totalResults,
        lastFetchSize := fs,
        hasMore := if name = "gnews" then false
                   else decide (r.articles.length ≥ fs) } := by
  by_cases ha : r.articles = []
  · right
    simp only [ha, List.length_nil]
    split
    · rfl
    · simp; omega
  · left; exact ha


theorem searchWithCache_ok_entry {σ A : Type} [DecidableEq σ]
    {st : ClientState σ A} {tq name : String} {p l : Nat} {rest : σ}
    {fetch : String → Nat → Except NewsErr (ProviderEnvelope A)} {resp : Response A}
    (hl : 1 ≤ l)
    (h : (NewsClient.searchWithCache st tq name p l rest fetch).result = .ok resp) :
    ∃ entry, resp = NewsClient.finishSearch entry name p l ∧
      mapGet (NewsClient.searchWithCache st tq name p l rest fetch).state.articleCache
        ⟨tq, name, rest⟩ = some entry ∧
      populatedEntry entry := by
  have hfs : 1 ≤ (if name = "gnews" then 10 else max ((p - 1) * l + l) (l * 2)) := by
    split
    · omega
    · have := Nat.le_max_right ((p - 1) * l + l) (l * 2)
      omega
  cases hm : mapGet st.articleCache (⟨tq, name, rest⟩ : CacheKey σ) with
  | none =>
    simp only [NewsClient.searchWithCache, hm, Option.getD_none, Option.isSome_none,
      Bool.false_eq_true, if_false, emptyEntry, List.length_nil, and_self, if_true] at h ⊢
    cases hf : fetch tq (if name = "gnews" then 10 else max ((p - 1) * l + l) (l * 2)) with
    | error e =>
      rw [hf] at h
      exact absurd h (by simp)
    | ok r =>
      rw [hf] at h
      dsimp only at h
      exact ⟨_, (Except.ok.inj h).symm, mapGet_mapSet_self _ _ _,
        fetchEntry_populated r name _ hfs⟩
  | some c =>
    simp only [NewsClient.searchWithCache, hm, Option.getD_some, Option.isSome_some,
      if_true] at h ⊢
    by_cases hc : c.articles.length = 0 ∧ c.hasMore = true
    · rw [if_pos hc] at h ⊢
      cases hf : fetch tq (if name = "gnews" then 10 else max ((p - 1) * l + l) (l * 2)) with
      | error e =>
        rw [hf] at h
        exact absurd h (by simp)
      | ok r =>
        rw [hf] at h
        dsimp only at h
        exact ⟨_, (Except.ok.inj h).symm, mapGet_mapSet_self _ _ _,
          fetchEntry_populated r name _ hfs⟩
    · rw [if_neg hc] at h ⊢
      refine ⟨c, (Except.ok.inj h).symm, by simpa using hm, ?_⟩
      rcases Decidable.not_and_iff_or_not.mp hc with h0 | h1
      · exact Or.inl (fun he => h0 (by simp [he]))
      · exact Or.inr (by revert h1; cases c.hasMore <;> simp)

theorem searchWithCache_populated {σ A : Type} [DecidableEq σ]
    {st : ClientState σ A} {tq name : String} {p l : Nat} {rest : σ}
    {fetch : String → Nat → Except NewsErr (ProviderEnvelope A)} {entry : CacheEntry A}
    (hm : mapGet st.articleCache ⟨tq, name, rest⟩ = some entry)
    (hp : populatedEntry entry) :
    NewsClient.searchWithCache st tq name p l rest fetch =
      { result := .ok (NewsClient.finishSearch entry name p l)
        state := st, fetches := 0 } := by
  have hcond : ¬ (entry.articles.length = 0 ∧ entry.hasMore = true) := by
    rcases hp with h | h
    · rintro ⟨h0, _⟩; exact h (List.length_eq_zero.mp h0)
    · rintro ⟨_, h1⟩; rw [h] at h1; exact Bool.false_ne_true h1
  simp only [NewsClient.searchWithCache, hm, Option.getD_some, Option.isSome_some,
    if_true]
  rw [if_neg hcond]

theorem pagConsistent_addPaginationMetadata {A : Type} (r : ProviderEnvelope A)
    (p l : Nat) :
    pagConsistent (NewsClient.addPaginationMetadata r p l).pagination := by
  refine ⟨?_, rfl, ?_⟩
  · intro _
    rfl
  · simp only [NewsClient.addPaginationMetadata]
    split
    · simp
    · simp

theorem getTopHeadlines_ok_shape {σ A : Type} [DecidableEq σ]
    {st : ClientState σ A} {opts : NewsClient.SearchOpts σ}
    {fetch : Nat → Nat → Except NewsErr (ProviderEnvelope A)} {resp : HeadlinesResponse A}
    (h : NewsClient.getTopHeadlines st opts fetch = .ok resp) :
    ∃ p l r, NewsClient.checkPage (NewsClient.pageValOf opts) = .ok p ∧
      NewsClient.checkLimitHeadlines (NewsClient.limitValOf opts) = .ok l ∧
      resp = NewsClient.addPaginationMetadata r p l := by
  cases hp : NewsClient.checkPage (NewsClient.pageValOf opts) with
  | error e => simp [NewsClient.getTopHeadlines, hp] at h
  | ok p =>
    cases hl : NewsClient.checkLimitHeadlines (NewsClient.limitValOf opts) with
    | error e => simp [NewsClient.getTopHeadlines, hp, hl] at h
    | ok l =>
      cases hn : NewsClient.getProvider st opts.provider with
      | error e => simp [NewsClient.getTopHeadlines, hp, hl, hn] at h
      | ok name =>
        cases hf : fetch l ((p - 1) * l) with
        | error e => simp [NewsClient.getTopHeadlines, hp, hl, hn, hf] at h
        | ok r =>
          refine ⟨p, l, r, rfl, rfl, ?_⟩
          simp [NewsClient.getTopHeadlines, hp, hl, hn, hf] at h
          exact h.symm

/-! ## Claim C3 — internal consistency of the pagination metadata -/

/-- C3: every envelope a successful `searchNews` or `getTopHeadlines` call
returns has internally consistent pagination metadata: `totalPages` is the
ceiling `(totalResults + limit - 1) / limit` of `totalResults / limit`
whenever `totalResults > 0`, `hasPreviousPage` is exactly `currentPage > 1`,
and `nextPage = currentPage + 1` precisely when `hasNextPage` (otherwise it
is `null`); the limit in the metadata is always at least 1, which makes the
division formula the true ceiling. -/
theorem claim3_pagination_consistent {σ A : Type} [DecidableEq σ] :
    (∀ (st : ClientState σ A) (q : Option String) (opts : NewsClient.SearchOpts σ)
       (fetch : String → Nat → Except NewsErr (ProviderEnvelope A)) (resp : Response A),
      (NewsClient.searchNews st q opts fetch).result = .ok resp →
        1 ≤ resp.pagination.limit ∧ pagConsistent resp.pagination) ∧
    (∀ (st : ClientState σ A) (opts : NewsClient.SearchOpts σ)
       (fetch : Nat → Nat → Except NewsErr (ProviderEnvelope A)) (resp : HeadlinesResponse A),
      NewsClient.getTopHeadlines st opts fetch = .ok resp →
        1 ≤ resp.pagination.limit ∧ pagConsistent resp.pagination) := by
  constructor
  · intro st q opts fetch resp h
    obtain ⟨s, p, l, name, hq, htrim, hp, hl, hn, heq⟩ := searchNews_ok_shape h
    rw [heq] at h
    obtain ⟨entry, hresp, hment, hpop⟩ := searchWithCache_ok_entry (checkLimit_ok_pos hl) h
    subst hresp
    refine ⟨?_, pagConsistent_finishSearch entry name p l⟩
    rw [(finishSearch_fields entry name p l).2.1]
    exact checkLimit_ok_pos hl
  · intro st opts fetch resp h
    obtain ⟨p, l, r, hp, hl, hresp⟩ := getTopHeadlines_ok_shape h
    subst hresp
    exact ⟨checkLimitHeadlines_ok_pos hl, pagConsistent_addPaginationMetadata r p l⟩

/-- C3 witness: the page-1 scenario response of the demo client. -/
theorem claim3_pagination_consistent_witness :
    1 ≤ (NewsClient.createPaginatedResponse ([0, 1, 2, 3, 4] : List Nat) 8 1 5 true
      "gnews").pagination.limit ∧
    pagConsistent (NewsClient.createPaginatedResponse ([0, 1, 2, 3, 4] : List Nat) 8 1 5 true
      "gnews").pagination :=
  (claim3_pagination_consistent (σ := Unit)).1 demoState (some "climate")
    (demoOpts (.num 1) (.num 5)) demoFetch8 _ rfl

theorem finishSearch_gnews {A : Type} (entry : CacheEntry A) (p l : Nat) :
    NewsClient.finishSearch entry "gnews" p l =
      NewsClient.createPaginatedResponse ((entry.articles.drop ((p - 1) * l)).take l)
        entry.articles.length p l
        (decide (entry.articles.length > (p - 1) * l + l)) "gnews" := by
  simp [NewsClient.finishSearch]

theorem searchWithCache_registry_stable {σ A : Type} [DecidableEq σ]
    (st : ClientState σ A) (tq name : String) (p l : Nat) (rest : σ)
    (fetch : String → Nat → Except NewsErr (ProviderEnvelope A)) :
    (NewsClient.searchWithCache st tq name p l rest fetch).state.providers = st.providers ∧
    (NewsClient.searchWithCache st tq name p l rest fetch).state.defaultProvider =
      st.defaultProvider := by
  cases hm : mapGet st.articleCache (⟨tq, name, rest⟩ : CacheKey σ) with
  | none =>
    simp only [NewsClient.searchWithCache, hm, Option.getD_none, Option.isSome_none,
      Bool.false_eq_true, if_false, emptyEntry, List.length_nil, and_self, if_true]
    cases hf : fetch tq (if name = "gnews" then 10 else max ((p - 1) * l + l) (l * 2)) with
    | error e => exact ⟨rfl, rfl⟩
    | ok r => exact ⟨rfl, rfl⟩
  | some c =>
    simp only [NewsClient.searchWithCache, hm, Option.getD_some, Option.isSome_some,
      if_true]
    by_cases hc : c.articles.length = 0 ∧ c.hasMore = true
    · rw [if_pos hc]
      cases hf : fetch tq (if name = "gnews" then 10 else max ((p - 1) * l + l) (l * 2)) with
      | error e => exact ⟨rfl, rfl⟩
      | ok r => exact ⟨rfl, rfl⟩
    · rw [if_neg hc]; exact ⟨rfl, rfl⟩

theorem getProvider_congr {σ A : Type} [DecidableEq σ]
    {st st2 : ClientState σ A} (hprov : st2.providers = st.providers)
    (hdef : st2.defaultProvider = st.defaultProvider) (nm : Option String) :
    NewsClient.getProvider st2 nm = NewsClient.getProvider st nm := by
  cases nm <;> simp [NewsClient.getProvider, hprov, hdef]

theorem searchNews_populated_noFetch {σ A : Type} [DecidableEq σ]
    {st : ClientState σ A} {s : String} {prov : Option String} {name : String} {rest : σ}
    {entry : CacheEntry A}
    (hm : mapGet st.articleCache ⟨jsTrim s, name, rest⟩ = some entry)
    (hpop : populatedEntry entry)
    (hname : NewsClient.getProvider st prov = .ok name)
    (pg lm : JSVal) (f : String → Nat → Except NewsErr (ProviderEnvelope A)) :
    (NewsClient.searchNews st (some s) ⟨prov, pg, lm, rest⟩ f).fetches = 0 ∧
    (NewsClient.searchNews st (some s) ⟨prov, pg, lm, rest⟩ f).state = st ∧
    ∀ resp : Response A,
      (NewsClient.searchNews st (some s) ⟨prov, pg, lm, rest⟩ f).result = .ok resp →
      resp.articles = (entry.articles.drop
        ((resp.pagination.currentPage - 1) * resp.pagination.limit)).take
          resp.pagination.limit := by
  by_cases hq : (jsTrim s).isEmpty = true
  · simp [NewsClient.searchNews, hq]
  · cases hp : NewsClient.checkPage (NewsClient.pageValOf ⟨prov, pg, lm, rest⟩) with
    | error e => simp [NewsClient.searchNews, hq, hp]
    | ok p =>
      cases hl : NewsClient.checkLimit (NewsClient.limitValOf ⟨prov, pg, lm, rest⟩) with
      | error e => simp [NewsClient.searchNews, hq, hp, hl]
      | ok l =>
        have heq : NewsClient.searchNews st (some s) ⟨prov, pg, lm, rest⟩ f =
            NewsClient.searchWithCache st (jsTrim s) name p l rest f := by
          simp [NewsClient.searchNews, hq, hp, hl, hname]
        rw [heq, searchWithCache_populated hm hpop]
        refine ⟨rfl, rfl, ?_⟩
        intro resp hr
        have hre : resp = NewsClient.finishSearch entry name p l := (Except.ok.inj hr).symm
        subst hre
        obtain ⟨h1, h2, h3⟩ := finishSearch_fields entry name p l
        rw [h3, h1, h2]

theorem runSearchSeq_populated {σ A : Type} [DecidableEq σ]
    {st : ClientState σ A} {s : String} {prov : Option String} {name : String} {rest : σ}
    {entry : CacheEntry A}
    (hm : mapGet st.articleCache ⟨jsTrim s, name, rest⟩ = some entry)
    (hpop : populatedEntry entry)
    (hname : NewsClient.getProvider st prov = .ok name) :
    ∀ reqs, (NewsClient.runSearchSeq st (some s) prov rest reqs).2 = st ∧
      ∀ step ∈ (NewsClient.runSearchSeq st (some s) prov rest reqs).1,
        step.fetches = 0 ∧ step.state = st ∧
        ∀ resp, step.result = .ok resp →
          resp.articles = (entry.articles.drop
            ((resp.pagination.currentPage - 1) * resp.pagination.limit)).take
              resp.pagination.limit := by
  intro reqs
  induction reqs with
  | nil => simp [NewsClient.runSearchSeq]
  | cons req more ih =>
    obtain ⟨pg, lm, f⟩ := req
    obtain ⟨h1, h2, h3⟩ := searchNews_populated_noFetch hm hpop hname pg lm f
    simp only [NewsClient.runSearchSeq, h2]
    refine ⟨ih.1, ?_⟩
    intro step hstep
    rcases List.mem_cons.mp hstep with hfirst | hrest
    · subst hfirst
      exact ⟨h1, h2, h3⟩
    · exact ih.2 step hrest

/-! ## Claim C1 — the at-most-one-fetch invariant -/

/-- C1: once one `searchNews` call has succeeded for a key (so the key's
entry is populated), every subsequent sequence of `searchNews` calls for the
same key — same query, same requested provider, same residual options, any
pages, limits and oracles — performs zero upstream fetches, leaves the whole
client state (cache included) exactly as it was, and every successful
response merely re-slices the already-cached article sequence of that entry
at the response's own page/limit. Only `clearCache` could ever discard the
entry. -/
theorem claim1_at_most_one_fetch {σ A : Type} [DecidableEq σ]
    (st : ClientState σ A) (q : Option String) (opts : NewsClient.SearchOpts σ)
    (fetch : String → Nat → Except NewsErr (ProviderEnvelope A))
    (resp0 : Response A) (s name : String) (entry : CacheEntry A)
    (hq : q = some s)
    (hname : NewsClient.getProvider st opts.provider = .ok name)
    (h : (NewsClient.searchNews st q opts fetch).result = .ok resp0)
    (hentry : mapGet (NewsClient.searchNews st q opts fetch).state.articleCache
      ⟨jsTrim s, name, opts.rest⟩ = some entry) :
    populatedEntry entry ∧
    ∀ reqs,
      (NewsClient.runSearchSeq (NewsClient.searchNews st q opts fetch).state q
        opts.provider opts.rest reqs).2 =
        (NewsClient.searchNews st q opts fetch).state ∧
      ∀ step ∈ (NewsClient.runSearchSeq (NewsClient.searchNews st q opts fetch).state q
          opts.provider opts.rest reqs).1,
        step.fetches = 0 ∧
        step.state = (NewsClient.searchNews st q opts fetch).state ∧
        ∀ resp, step.result = .ok resp →
          resp.articles = (entry.articles.drop
            ((resp.pagination.currentPage - 1) * resp.pagination.limit)).take
              resp.pagination.limit := by
  subst hq
  obtain ⟨s', p, l, name', hq', htrim, hp, hl, hn', heq⟩ := searchNews_ok_shape h
  have hss : s = s' := Option.some.inj hq'
  subst hss
  have hnn : name = name' := by
    rw [hname] at hn'
    exact Except.ok.inj hn'
  subst hnn
  rw [heq] at h hentry ⊢
  obtain ⟨entry', hresp, hment, hpop⟩ := searchWithCache_ok_entry (checkLimit_ok_pos hl) h
  rw [hment] at hentry
  have hee : entry' = entry := Option.some.inj hentry
  subst hee
  refine ⟨hpop, fun reqs => ?_⟩
  have hstable := searchWithCache_registry_stable st (jsTrim s) name p l opts.rest fetch
  have hname2 : NewsClient.getProvider
      (NewsClient.searchWithCache st (jsTrim s) name p l opts.rest fetch).state
      opts.provider = .ok name := by
    rw [getProvider_congr hstable.1 hstable.2]
    exact hname
  exact runSearchSeq_populated hment hpop hname2 reqs

/-- C1 witness: after the scenario's populating call, a page-2 and a page-3
request (with an oracle that would return different data if it were ever
consulted) leave the state untouched and fetch nothing. -/
theorem claim1_at_most_one_fetch_witness :
    populatedEntry demoEntry8 ∧
    (NewsClient.runSearchSeq demoStep1.state (some "climate") none ()
      [(.num 2, .num 5, fun _ _ => .ok ⟨"ok", 0, none, "gnews", [99]⟩),
       (.num 3, .num 5, fun _ _ => .error (.jsError "should never be called"))]).2 =
      demoStep1.state :=
  ⟨(claim1_at_most_one_fetch demoState (some "climate") (demoOpts (.num 1) (.num 5))
      demoFetch8 (NewsClient.createPaginatedResponse ([0, 1, 2, 3, 4] : List Nat) 8 1 5
        true "gnews") "climate" "gnews" demoEntry8 rfl rfl rfl rfl).1,
   ((claim1_at_most_one_fetch demoState (some "climate") (demoOpts (.num 1) (.num 5))
      demoFetch8 (NewsClient.createPaginatedResponse ([0, 1, 2, 3, 4] : List Nat) 8 1 5
        true "gnews") "climate" "gnews" demoEntry8 rfl rfl rfl rfl).2
      [(.num 2, .num 5, fun _ _ => .ok ⟨"ok", 0, none, "gnews", [99]⟩),
       (.num 3, .num 5, fun _ _ => .error (.jsError "should never be called"))]).1⟩

/-! ## Claim C2 — gnews pagination semantics -/

/-- C2: for the ceiling-capped gnews provider, every successful `searchNews`
reports `totalResults` (both top-level and in the metadata) as the actual
cached article count — not the upstream-reported total — reports
`hasNextPage` exactly when the cached sequence holds more items than the
current page's end index `(page-1)*limit + limit`, and returns as articles
the corresponding slice of the cached sequence. -/
theorem claim2_gnews_pagination {σ A : Type} [DecidableEq σ]
    (st : ClientState σ A) (q : Option String) (opts : NewsClient.SearchOpts σ)
    (fetch : String → Nat → Except NewsErr (ProviderEnvelope A))
    (s : String) (resp : Response A) (entry : CacheEntry A)
    (hq : q = some s)
    (hname : NewsClient.getProvider st opts.provider = .ok "gnews")
    (h : (NewsClient.searchNews st q opts fetch).result = .ok resp)
    (hentry : mapGet (NewsClient.searchNews st q opts fetch).state.articleCache
      ⟨jsTrim s, "gnews", opts.rest⟩ = some entry) :
    resp.totalResults = entry.articles.length ∧
    resp.pagination.totalResults = entry.articles.length ∧
    resp.pagination.hasNextPage = decide (entry.articles.length >
      (resp.pagination.currentPage - 1) * resp.pagination.limit +
        resp.pagination.limit) ∧
    resp.articles = (entry.articles.drop
      ((resp.pagination.currentPage - 1) * resp.pagination.limit)).take
        resp.pagination.limit := by
  subst hq
  obtain ⟨s', p, l, name', hq', htrim, hp, hl, hn', heq⟩ := searchNews_ok_shape h
  have hss : s' = s := by injection hq' with hss; exact hss.symm
  subst hss
  have hnn : name' = "gnews" := by
    rw [hname] at hn'
    exact (Except.ok.inj hn').symm
  subst hnn
  rw [heq] at h hentry
  obtain ⟨entry', hresp, hment, hpop⟩ := searchWithCache_ok_entry (checkLimit_ok_pos hl) h
  rw [hment] at hentry
  have hee : entry' = entry := Option.some.inj hentry
  subst hee
  subst hresp
  rw [finishSearch_gnews]
  exact ⟨rfl, rfl, rfl, rfl⟩

/-- C2 witness: the spec scenario, page 2 — the remaining 3 of the 8 cached
articles, `hasNextPage = false`, `totalResults = 8`, and no second fetch
(`fetches = 0`); the populating page-1 call performed the single fetch. -/
theorem claim2_gnews_pagination_witness :
    (NewsClient.searchNews demoStep1.state (some "climate") (demoOpts (.num 2) (.num 5))
        demoFetch8).result =
      .ok (NewsClient.createPaginatedResponse ([5, 6, 7] : List Nat) 8 2 5 false "gnews") ∧
    demoStep1.fetches = 1 ∧
    (NewsClient.searchNews demoStep1.state (some "climate") (demoOpts (.num 2) (.num 5))
        demoFetch8).fetches = 0 ∧
    (NewsClient.createPaginatedResponse ([5, 6, 7] : List Nat) 8 2 5 false
        "gnews").totalResults = demoEntry8.articles.length ∧
    (NewsClient.createPaginatedResponse ([5, 6, 7] : List Nat) 8 2 5 false
        "gnews").articles = (demoEntry8.articles.drop 5).take 5 := by
  have h := claim2_gnews_pagination demoStep1.state (some "climate")
    (demoOpts (.num 2) (.num 5)) demoFetch8 "climate"
    (NewsClient.createPaginatedResponse ([5, 6, 7] : List Nat) 8 2 5 false "gnews")
    demoEntry8 rfl rfl rfl rfl
  exact ⟨rfl, rfl, rfl, h.1, h.2.2.2⟩

/-! ## Claim C5 — the provider validity filter -/

/-- C5: the spec says the newsapi and guardian `normalizeResponse` keep
exactly the articles whose normalized url is non-null and that "the filtering
itself never fails". The code instead calls `article.isValid()` on
`ArticleData` instances, and `ArticleData` declares no `isValid` method (nor
any superclass that could), so on any response holding at least one article —
here one perfectly valid article each, with an absolute https url — both
normalizers throw `TypeError: article.isValid is not a function` instead of
filtering. -/
theorem claim5_normalize_filter_throws :
    NewsAPIProvider.normalizeResponse parseAll
      (.obj [("articles", .arr [.obj [("title", .str "T"),
        ("url", .str "https://example.com/a")]])]) =
      .error "article.isValid is not a function" ∧
    GuardianProvider.normalizeResponse parseAll
      (.obj [("response", .obj [("results", .arr [.obj [("webTitle", .str "T"),
        ("webUrl", .str "https://example.com/a")]])])]) =
      .error "article.isValid is not a function" :=
  ⟨rfl, rfl⟩

/-! ## Claim C4 — wrapping of transport failures -/

/-- C4 counterexample: the claim says every transport failure, for every
provider variant, surfaces as an `ExternalAPIError` with status 502. A plain
HTTP 500 from NewsAPI is instead re-thrown as an untyped
`Error('NewsAPI search failed: ...')`, which is not an `ExternalAPIError`
and carries no `statusCode` at all. -/
theorem claim4_newsapi_plain_error :
    NewsAPIProvider.searchNews true none
      (.response false 500 "Internal Server Error" (.ok .null)) parseAll =
      .error (.jsError
        "NewsAPI search failed: NewsAPI request failed: 500 Internal Server Error") ∧
    (NewsErr.jsError
      "NewsAPI search failed: NewsAPI request failed: 500 Internal Server Error").isExternalAPIError
      = false ∧
    (NewsErr.jsError
      "NewsAPI search failed: NewsAPI request failed: 500 Internal Server Error").statusCode
      ≠ some 502 := by
  refine ⟨rfl, rfl, ?_⟩
  simp [NewsErr.statusCode]

/-- C4 amended: only GNews wraps transport failures in
`ExternalAPIError` (502) naming the provider and preserving the original
message; NewsAPI and Guardian wrap every try-block failure in a plain
`Error` whose message names the provider and embeds the original message,
with no `ExternalAPIError` type and no status code. In all three cases the
original failure text is preserved and no raw transport exception escapes
unwrapped. -/
theorem claim4_transport_wrapping (parseURL : String → Bool)
    (sortBy searchIn category : Option String)
    (hso : enumOptionBad sortByValues sortBy = false)
    (hsi : enumOptionBad searchInValues searchIn = false)
    (hca : enumOptionBad categoryValues category = false) :
    (∀ e : String,
      GNewsProvider.searchNews true sortBy searchIn (.error e) parseURL =
        .error (.externalAPIError "GNews" e) ∧
      GNewsProvider.getTopHeadlines true category (.error e) parseURL =
        .error (.externalAPIError "GNews" e) ∧
      (NewsErr.externalAPIError "GNews" e).statusCode = some 502 ∧
      (NewsErr.externalAPIError "GNews" e).message =
        "External API error from GNews: " ++ e) ∧
    (∀ (t : Transport) (m : String),
      runTransport "NewsAPI request failed" t = .error m →
      NewsAPIProvider.searchNews true sortBy t parseURL =
        .error (.jsError ("NewsAPI search failed: " ++ m)) ∧
      NewsAPIProvider.getTopHeadlines true category t parseURL =
        .error (.jsError ("NewsAPI top headlines failed: " ++ m))) ∧
    (∀ (t : Transport) (m : String),
      runTransport "Guardian request failed" t = .error m →
      GuardianProvider.searchNews true sortBy t parseURL =
        .error (.jsError ("Guardian search failed: " ++ m)) ∧
      GuardianProvider.getTopHeadlines true category t parseURL =
        .error (.jsError ("Guardian top headlines failed: " ++ m))) ∧
    (∀ m : String, (NewsErr.jsError m).isExternalAPIError = false ∧
      (NewsErr.jsError m).statusCode = none) := by
  refine ⟨?_, ?_, ?_, ?_⟩
  · intro e
    refine ⟨?_, ?_, rfl, rfl⟩
    · simp [GNewsProvider.searchNews, hso, hsi]
    · simp [GNewsProvider.getTopHeadlines, hca]
  · intro t m h
    constructor
    · simp [NewsAPIProvider.searchNews, hso, h, Bind.bind, Except.bind]
    · simp [NewsAPIProvider.getTopHeadlines, hca, h, Bind.bind, Except.bind]
  · intro t m h
    constructor
    · simp [GuardianProvider.searchNews, hso, h, Bind.bind, Except.bind]
    · simp [GuardianProvider.getTopHeadlines, hca, h, Bind.bind, Except.bind]
  · intro m
    exact ⟨rfl, rfl⟩

/-- C4 witness: the amended theorem applied with every enum option absent and
a concrete network rejection. -/
theorem claim4_transport_wrapping_witness :
    GNewsProvider.searchNews true none none (.error "socket hang up") parseAll =
      .error (.externalAPIError "GNews" "socket hang up") ∧
    NewsAPIProvider.searchNews true none (.networkError "fetch failed") parseAll =
      .error (.jsError ("NewsAPI search failed: " ++ "fetch failed")) := by
  have h := claim4_transport_wrapping parseAll none none none rfl rfl rfl
  exact ⟨(h.1 "socket hang up").1, (h.2.1 (.networkError "fetch failed") "fetch failed" rfl).1⟩

/-! ## Claim C8 — empty-query validation -/

/-- C8: a `null`/`undefined`, empty, or whitespace-only query makes
`searchNews` throw the `InvalidQueryError` (status 400, message referencing
"Search query") built from the falsy-query guard, while leaving the client
state — including the cache — untouched and performing no provider fetch;
nothing about the provider registry is consulted (the same equation holds
for every state, provider option and oracle). -/
theorem claim8_empty_query_rejected {σ A : Type} [DecidableEq σ]
    (st : ClientState σ A) (opts : NewsClient.SearchOpts σ)
    (fetch : String → Nat → Except NewsErr (ProviderEnvelope A))
    (query : Option String)
    (h : query = none ∨ ∃ s, query = some s ∧ (jsTrim s).isEmpty = true) :
    NewsClient.searchNews st query opts fetch =
      { result := .error (.invalidQuery (query.getD "")
          "Search query is required and must be non-empty")
        state := st
        fetches := 0 } ∧
    (NewsErr.invalidQuery (query.getD "")
      "Search query is required and must be non-empty").statusCode = some 400 ∧
    (NewsErr.invalidQuery (query.getD "")
      "Search query is required and must be non-empty").message =
      "Search query is required and must be non-empty: '" ++ query.getD "" ++ "'" := by
  refine ⟨?_, rfl, rfl⟩
  rcases h with h | ⟨s, rfl, hs⟩
  · subst h; rfl
  · simp [NewsClient.searchNews, hs]

/-- C8 witness: a whitespace-only query against the demo client. -/
theorem claim8_empty_query_rejected_witness :
    NewsClient.searchNews demoState (some "   ") (demoOpts (.num 1) (.num 5)) demoFetch8 =
      { result := .error (.invalidQuery "   "
          "Search query is required and must be non-empty")
        state := demoState
        fetches := 0 } :=
  (claim8_empty_query_rejected demoState (demoOpts (.num 1) (.num 5)) demoFetch8
    (some "   ") (Or.inr ⟨"   ", rfl, rfl⟩)).1

/-! ## Claim C9 — page/limit validation -/

/-- C9 counterexample: the claim says every non-integer page/limit input is
rejected with a validation error. The code validates with `parseInt`, which
truncates: the non-integer page literal `"3.7"` is accepted, the call
succeeds (even performing the provider fetch) and serves page 3. -/
theorem claim9_noninteger_page_accepted :
    (NewsClient.searchNews demoState (some "climate")
      (demoOpts (.str "3.7") (.num 5)) demoFetch8).result.isOk = true ∧
    (NewsClient.searchNews demoState (some "climate")
      (demoOpts (.str "3.7") (.num 5)) demoFetch8).fetches = 1 ∧
    (NewsClient.searchNews demoState (some "climate")
      (demoOpts (.str "3.7") (.num 5)) demoFetch8).result.map
        (fun r => r.pagination.currentPage) = .ok 3 :=
  ⟨rfl, rfl, rfl⟩

/-- C9 amended: with a valid query, `searchNews` rejects `page` (then
`limit`), fast and before provider resolution, with a 400 validation error
carrying the offending literal, exactly when `parseInt` of the option is
`NaN` or below 1; when both `parseInt` results are ≥ 1 the values are
accepted as their truncation and the call proceeds to provider resolution.
(Non-integer literals with an integer prefix ≥ 1, such as `"3.7"`, are
therefore accepted rather than rejected.) -/
theorem claim9_page_limit_validation {σ A : Type} [DecidableEq σ]
    (st : ClientState σ A) (opts : NewsClient.SearchOpts σ)
    (fetch : String → Nat → Except NewsErr (ProviderEnvelope A))
    (s : String) (hq : (jsTrim s).isEmpty = false) :
    ((jsParseInt (NewsClient.pageValOf opts) = none ∨
        ∃ n, jsParseInt (NewsClient.pageValOf opts) = some n ∧ n < 1) →
      NewsClient.searchNews st (some s) opts fetch =
        { result := .error (.invalidQuery (NewsClient.pageValOf opts).toJSString
            "Page must be a positive integer")
          state := st, fetches := 0 }) ∧
    ((∃ np, jsParseInt (NewsClient.pageValOf opts) = some np ∧ 1 ≤ np) →
      (jsParseInt (NewsClient.limitValOf opts) = none ∨
        ∃ n, jsParseInt (NewsClient.limitValOf opts) = some n ∧ n < 1) →
      NewsClient.searchNews st (some s) opts fetch =
        { result := .error (.invalidQuery (NewsClient.limitValOf opts).toJSString
            "Limit must be between 1 or more")
          state := st, fetches := 0 }) ∧
    (∀ np nl : Int, jsParseInt (NewsClient.pageValOf opts) = some np → 1 ≤ np →
      jsParseInt (NewsClient.limitValOf opts) = some nl → 1 ≤ nl →
      NewsClient.searchNews st (some s) opts fetch =
        (match NewsClient.getProvider st opts.provider with
         | .error e => { result := .error e, state := st, fetches := 0 }
         | .ok name =>
           NewsClient.searchWithCache st (jsTrim s) name np.toNat nl.toNat
             opts.rest fetch)) ∧
    (∀ v r : String, (NewsErr.invalidQuery v r).statusCode = some 400 ∧
      (NewsErr.invalidQuery v r).message = r ++ ": '" ++ v ++ "'") := by
  refine ⟨?_, ?_, ?_, fun v r => ⟨rfl, rfl⟩⟩
  · intro h
    rcases h with h | ⟨n, h, hn⟩
    · simp [NewsClient.searchNews, hq, NewsClient.checkPage, h]
    · simp [NewsClient.searchNews, hq, NewsClient.checkPage, h, hn]
  · rintro ⟨np, hp, hnp⟩ h
    have hplt : ¬ np < 1 := by omega
    rcases h with h | ⟨n, h, hn⟩
    · simp [NewsClient.searchNews, hq, NewsClient.checkPage, NewsClient.checkLimit,
        hp, hplt, h]
    · simp [NewsClient.searchNews, hq, NewsClient.checkPage, NewsClient.checkLimit,
        hp, hplt, h, hn]
  · intro np nl hp hnp hl hnl
    have hplt : ¬ np < 1 := by omega
    have hllt : ¬ nl < 1 := by omega
    simp [NewsClient.searchNews, hq, NewsClient.checkPage, NewsClient.checkLimit,
      hp, hl, hplt, hllt]

/-- C9 witness: page 0 is rejected with the 400 error carrying `'0'`. -/
theorem claim9_page_limit_validation_witness :
    NewsClient.searchNews demoState (some "climate")
      (demoOpts (.num 0) (.num 5)) demoFetch8 =
      { result := .error (.invalidQuery "0" "Page must be a positive integer")
        state := demoState, fetches := 0 } :=
  (claim9_page_limit_validation demoState (demoOpts (.num 0) (.num 5)) demoFetch8
    "climate" rfl).1 (Or.inr ⟨0, rfl, by decide⟩)

/-! ## Shared lemmas about the normalizer -/

theorem validateUrl_none {parseURL : String → Bool} {v : JSVal}
    (h : ∀ s, v = JSVal.str s → s = "" ∨ parseURL s = false) :
    ArticleData.validateUrl parseURL v = none := by
  cases v with
  | str s =>
    rcases h s rfl with he | hf
    · subst he; rfl
    · simp [ArticleData.validateUrl, hf]
  | undefined => rfl
  | null => rfl
  | bool b => rfl
  | num n => rfl
  | obj fields => rfl
  | arr es => rfl

theorem validateDate_none {v : JSVal} (h : ∀ s, v = JSVal.str s → s = "") :
    ArticleData.validateDate v = none := by
  cases v with
  | str s =>
    have := h s rfl
    subst this; rfl
  | undefined => rfl
  | null => rfl
  | bool b => rfl
  | num n => rfl
  | obj fields => rfl
  | arr es => rfl

theorem sanitizeString_not_str {v : JSVal} (h : v.isStr = false) :
    ArticleData.sanitizeString v = "" := by
  cases v <;> simp_all [JSVal.isStr, ArticleData.sanitizeString]

/-! ## Claim C6 — normalization is total and degrades gracefully -/

/-- C6: the `ArticleData` constructor is a total function of an object
payload (the only fallible host call, `new URL`, is caught inside
`_validateUrl`, and every helper is itself total), and each malformed field
degrades to its documented default: a url/urlToImage that is empty, not a
string, or rejected by the URL parser becomes `null`, a `publishedAt` that
is not a non-empty string becomes `null`, a non-object `source` is replaced
wholesale by `{name: "Unknown", url: null}`, a non-string or absent title
becomes the placeholder, and non-string free-text fields become the empty
string — no input propagates an error. -/
theorem claim6_normalize_total_defaults (parseURL : String → Bool) (data : JSVal) :
    ((∀ s, data.get "url" = JSVal.str s → s = "" ∨ parseURL s = false) →
      (ArticleData.construct parseURL data).url = none) ∧
    ((∀ s, data.get "urlToImage" = JSVal.str s → s = "" ∨ parseURL s = false) →
      (ArticleData.construct parseURL data).urlToImage = none) ∧
    ((∀ s, data.get "publishedAt" = JSVal.str s → s = "") →
      (ArticleData.construct parseURL data).publishedAt = none) ∧
    ((data.get "source").isObj = false →
      (ArticleData.construct parseURL data).source = { name := "Unknown", url := none }) ∧
    ((data.get "title").isStr = false →
      (ArticleData.construct parseURL data).title = "No title available") ∧
    ((data.get "description").isStr = false →
      (ArticleData.construct parseURL data).description = "") ∧
    ((data.get "content").isStr = false →
      (ArticleData.construct parseURL data).content = "") := by
  refine ⟨?_, ?_, ?_, ?_, ?_, ?_, ?_⟩
  · intro h
    exact validateUrl_none h
  · intro h
    exact validateUrl_none h
  · intro h
    exact validateDate_none h
  · intro h
    show ArticleData.normalizeSource parseURL (data.get "source") = _
    simp [ArticleData.normalizeSource, h]
  · intro h
    show (if (ArticleData.sanitizeString (data.get "title")).isEmpty
          then "No title available" else _) = _
    rw [sanitizeString_not_str h]
    rfl
  · intro h
    exact sanitizeString_not_str h
  · intro h
    exact sanitizeString_not_str h

/-- C6 witness: the all-malformed payload with a URL parser that rejects
everything. -/
theorem claim6_normalize_total_defaults_witness :
    (ArticleData.construct parseNone demoBadPayload).url = none ∧
    (ArticleData.construct parseNone demoBadPayload).urlToImage = none ∧
    (ArticleData.construct parseNone demoBadPayload).publishedAt = none ∧
    (ArticleData.construct parseNone demoBadPayload).source =
      { name := "Unknown", url := none } ∧
    (ArticleData.construct parseNone demoBadPayload).title = "No title available" ∧
    (ArticleData.construct parseNone demoBadPayload).description = "" ∧
    (ArticleData.construct parseNone demoBadPayload).content = "" := by
  have h := claim6_normalize_total_defaults parseNone demoBadPayload
  exact ⟨h.1 (fun s _ => Or.inr rfl),
    h.2.1 (fun s hs => by simp [demoBadPayload, JSVal.get, getField] at hs),
    h.2.2.1 (fun s hs => by simp [demoBadPayload, JSVal.get, getField] at hs),
    h.2.2.2.1 rfl, h.2.2.2.2.1 rfl, h.2.2.2.2.2.1 rfl, h.2.2.2.2.2.2 rfl⟩

/-! ## Shared lemmas about the id hash -/

theorem toInt32_range (x : Int) :
    -(2 ^ 31) ≤ toInt32 x ∧ toInt32 x < 2 ^ 31 := by
  simp only [toInt32]
  split <;> omega

theorem foldl_hashStep_range (l : List Nat) :
    ∀ a : Int, -(2 ^ 31) ≤ a ∧ a < 2 ^ 31 →
      -(2 ^ 31) ≤ l.foldl hashStep a ∧ l.foldl hashStep a < 2 ^ 31 := by
  induction l with
  | nil => intro a ha; exact ha
  | cons c rest ih =>
    intro a _
    exact ih (hashStep a c) (toInt32_range _)

theorem jsHash_range (s : String) :
    -(2 ^ 31) ≤ jsHash s ∧ jsHash s < 2 ^ 31 :=
  foldl_hashStep_range (strUtf16 s) 0 (by norm_num)

/-! ## Claim C7 — the id is a deterministic hash of (url, provider, title) -/

/-- C7: the article id is a pure function of the normalized `(url, provider,
title)` triple — two payloads agreeing on those three normalized fields get
the same id — and it always has the shape
`{provider}_{abs(h)}` where `h` is the order-dependent fold of the
`((a << 5) - a) + code` step over the UTF-16 code units of the concatenation
of url, provider and title (a `null` url concatenating as the text "null"),
kept in 32-bit signed range. -/
theorem claim7_id_deterministic (parseURL : String → Bool) (d1 d2 : JSVal)
    (hu : (ArticleData.construct parseURL d1).url =
      (ArticleData.construct parseURL d2).url)
    (hp : (ArticleData.construct parseURL d1).provider =
      (ArticleData.construct parseURL d2).provider)
    (ht : (ArticleData.construct parseURL d1).title =
      (ArticleData.construct parseURL d2).title) :
    (ArticleData.construct parseURL d1).id = (ArticleData.construct parseURL d2).id ∧
    ∀ d : JSVal,
      (ArticleData.construct parseURL d).id =
        (ArticleData.construct parseURL d).provider.toJSString ++ "_" ++
          toString (jsHash (ArticleData.idInput (ArticleData.construct parseURL d).url
            (ArticleData.construct parseURL d).provider
            (ArticleData.construct parseURL d).title)).natAbs ∧
      -(2 ^ 31) ≤ jsHash (ArticleData.idInput (ArticleData.construct parseURL d).url
        (ArticleData.construct parseURL d).provider
        (ArticleData.construct parseURL d).title) ∧
      jsHash (ArticleData.idInput (ArticleData.construct parseURL d).url
        (ArticleData.construct parseURL d).provider
        (ArticleData.construct parseURL d).title) < 2 ^ 31 := by
  constructor
  · show ArticleData.generateId (ArticleData.construct parseURL d1).url
      (ArticleData.construct parseURL d1).provider
      (ArticleData.construct parseURL d1).title =
      ArticleData.generateId (ArticleData.construct parseURL d2).url
        (ArticleData.construct parseURL d2).provider
        (ArticleData.construct parseURL d2).title
    rw [hu, hp, ht]
  · intro d
    exact ⟨rfl, (jsHash_range _).1, (jsHash_range _).2⟩

/-- C7 witness: two payloads differing only in their description share the
id, and the shape/bounds hold at one of them. -/
theorem claim7_id_deterministic_witness :
    (ArticleData.construct parseAll demoPayloadA).id =
      (ArticleData.construct parseAll demoPayloadB).id ∧
    (ArticleData.construct parseAll demoPayloadA).id =
      (ArticleData.construct parseAll demoPayloadA).provider.toJSString ++ "_" ++
        toString (jsHash (ArticleData.idInput
          (ArticleData.construct parseAll demoPayloadA).url
          (ArticleData.construct parseAll demoPayloadA).provider
          (ArticleData.construct parseAll demoPayloadA).title)).natAbs := by
  have h := claim7_id_deterministic parseAll demoPayloadA demoPayloadB rfl rfl rfl
  exact ⟨h.1, (h.2 demoPayloadA).1⟩

/-! ## Shared lemmas about whitespace sanitation -/

theorem dropWhile_allWs : ∀ {l : List Char}, allWsRun l →
    l.dropWhile jsWhitespace = []
  | [], _ => rfl
  | c :: t, h => by
    have hc := h c (List.mem_cons_self c t)
    have ht := dropWhile_allWs (fun x hx => h x (List.mem_cons_of_mem c hx))
    simp [List.dropWhile_cons, hc, ht]

theorem dropWhile_append_allWs : ∀ {lead : List Char} (m : List Char),
    allWsRun lead → (lead ++ m).dropWhile jsWhitespace = m.dropWhile jsWhitespace
  | [], _, _ => rfl
  | c :: t, m, h => by
    have hc := h c (List.mem_cons_self c t)
    have ht := dropWhile_append_allWs m (fun x hx => h x (List.mem_cons_of_mem c hx))
    simp [List.dropWhile_cons, hc, ht]

theorem dropWhile_cons_not {c : Char} {t : List Char} (hc : jsWhitespace c = false) :
    (c :: t).dropWhile jsWhitespace = c :: t := by
  simp [List.dropWhile_cons, hc]

theorem jsTrimList_sandwich {lead core trail : List Char}
    (hlead : allWsRun lead) (htrail : allWsRun trail)
    (hhead : ∃ c t, core = c :: t ∧ jsWhitespace c = false)
    (hlast : ∃ c pre, core = pre ++ [c] ∧ jsWhitespace c = false) :
    jsTrimList (lead ++ core ++ trail) = core := by
  obtain ⟨c0, t0, hc0, hw0⟩ := hhead
  obtain ⟨c1, pre, hc1, hw1⟩ := hlast
  unfold jsTrimList
  rw [List.append_assoc, dropWhile_append_allWs (core ++ trail) hlead]
  have hfront : (core ++ trail).dropWhile jsWhitespace = core ++ trail := by
    rw [hc0, List.cons_append]
    exact dropWhile_cons_not hw0
  rw [hfront, List.reverse_append,
    dropWhile_append_allWs core.reverse
      (fun x hx => htrail x (List.mem_reverse.mp hx))]
  have hback : core.reverse = c1 :: pre.reverse := by
    rw [hc1]; simp
  rw [hback, dropWhile_cons_not hw1, ← hback, List.reverse_reverse]

theorem collapseWsAux_false_word : ∀ {w : List Char} (l : List Char),
    (∀ c ∈ w, jsWhitespace c = false) →
    collapseWsAux false (w ++ l) = w ++ collapseWsAux false l
  | [], _, _ => rfl
  | c :: t, l, h => by
    have hc := h c (List.mem_cons_self c t)
    have ht := collapseWsAux_false_word l (fun x hx => h x (List.mem_cons_of_mem c hx))
    simp [collapseWsAux, hc, ht]

theorem collapseWsAux_true_ws : ∀ {s : List Char} (l : List Char), allWsRun s →
    (l = [] ∨ ∃ c t, l = c :: t ∧ jsWhitespace c = false) →
    collapseWsAux true (s ++ l) = collapseWsAux false l
  | [], l, _, hl => by
    rcases hl with rfl | ⟨c, t, rfl, hc⟩
    · rfl
    · simp [collapseWsAux, hc]
  | d :: s', l, hs, hl => by
    have hd := hs d (List.mem_cons_self d s')
    have ht := collapseWsAux_true_ws l
      (fun x hx => hs x (List.mem_cons_of_mem d hx)) hl
    simp [collapseWsAux, hd, ht]

theorem collapseWsAux_false_sep {s : List Char} (l : List Char)
    (hne : s ≠ []) (hs : allWsRun s)
    (hl : l = [] ∨ ∃ c t, l = c :: t ∧ jsWhitespace c = false) :
    collapseWsAux false (s ++ l) = ' ' :: collapseWsAux false l := by
  cases s with
  | nil => exact absurd rfl hne
  | cons d s' =>
    have hd := hs d (List.mem_cons_self d s')
    have ht := collapseWsAux_true_ws l
      (fun x hx => hs x (List.mem_cons_of_mem d hx)) hl
    simp [collapseWsAux, hd, ht]

theorem assembleWords_cons (w1 s w : List Char)
    (ps : List (List Char × List Char)) :
    assembleWords w1 ((s, w) :: ps) = (w1 ++ s) ++ assembleWords w ps := by
  simp [assembleWords, List.append_assoc]

theorem assembleWords_head {w1 : List Char} (hw : wordRun w1)
    (pieces : List (List Char × List Char)) :
    ∃ c t, assembleWords w1 pieces = c :: t ∧ jsWhitespace c = false := by
  obtain ⟨hne, hall⟩ := hw
  cases w1 with
  | nil => exact absurd rfl hne
  | cons c t' =>
    exact ⟨c, t' ++ ((pieces.map (fun p => p.1 ++ p.2)).flatten),
      by simp [assembleWords], hall c (List.mem_cons_self c t')⟩

theorem assembleWords_last : ∀ {pieces : List (List Char × List Char)}
    {w1 : List Char}, wordRun w1 →
    (∀ p ∈ pieces, (p.1 ≠ [] ∧ allWsRun p.1) ∧ wordRun p.2) →
    ∃ c pre, assembleWords w1 pieces = pre ++ [c] ∧ jsWhitespace c = false
  | [], w1, hw, _ => by
    rcases List.eq_nil_or_concat' w1 with rfl | ⟨pre, c, hc⟩
    · exact absurd rfl hw.1
    · refine ⟨c, pre, by simp [assembleWords, hc], ?_⟩
      exact hw.2 c (by rw [hc]; exact List.mem_append_right pre (List.mem_singleton.mpr rfl))
  | (s, w) :: ps, w1, hw, hp => by
    obtain ⟨c, pre, heq, hc⟩ := assembleWords_last
      (hp (s, w) (List.mem_cons_self _ _)).2
      (fun q hq => hp q (List.mem_cons_of_mem _ hq))
    exact ⟨c, (w1 ++ s) ++ pre,
      by rw [assembleWords_cons, heq]; simp [List.append_assoc], hc⟩

theorem collapseWs_assembleWords : ∀ {pieces : List (List Char × List Char)}
    {w1 : List Char}, wordRun w1 →
    (∀ p ∈ pieces, (p.1 ≠ [] ∧ allWsRun p.1) ∧ wordRun p.2) →
    collapseWs (assembleWords w1 pieces) =
      w1 ++ (pieces.map (fun p => ' ' :: p.2)).flatten
  | [], w1, hw, _ => by
    have h := collapseWsAux_false_word [] hw.2
    simpa [assembleWords, collapseWs, collapseWsAux] using h
  | (s, w) :: ps, w1, hw, hp => by
    have hps := hp (s, w) (List.mem_cons_self _ _)
    have hrest := fun q hq => hp q (List.mem_cons_of_mem _ hq)
    have hih := collapseWs_assembleWords hps.2 hrest
    rw [assembleWords_cons, List.append_assoc]
    unfold collapseWs at hih ⊢
    rw [collapseWsAux_false_word (s ++ assembleWords w ps) hw.2,
      collapseWsAux_false_sep (assembleWords w ps) hps.1.1 hps.1.2
        (Or.inr (assembleWords_head hps.2 ps)),
      hih]
    simp

theorem collapse_trim_title {lead w1 trail : List Char}
    {pieces : List (List Char × List Char)}
    (hg : goodTitle lead w1 pieces trail) :
    collapseWs (jsTrimList (assembleTitle lead w1 pieces trail)) =
      w1 ++ (pieces.map (fun p => ' ' :: p.2)).flatten := by
  obtain ⟨hlead, htrail, hw1, hp⟩ := hg
  unfold assembleTitle
  rw [jsTrimList_sandwich hlead htrail (assembleWords_head hw1 pieces)
    (assembleWords_last hw1 hp)]
  exact collapseWs_assembleWords hw1 hp

theorem sanitizeString_formula (t : String) :
    ArticleData.sanitizeString (.str t) =
      ⟨utf16Take 5000 (replaceCrLfTab (collapseWs (jsTrimList t.data)))⟩ := by
  by_cases h : t.isEmpty = true
  · have ht : t = "" := (String.isEmpty_iff t).mp h
    subst ht
    rfl
  · simp [ArticleData.sanitizeString, h]

theorem allWs_canon {t : String} (h : allWsRun t.data) :
    collapseWs (jsTrimList t.data) = [] := by
  unfold jsTrimList
  rw [dropWhile_allWs h]
  rfl

/-! ## Claim C10 — the id ignores whitespace differences in the title -/

/-- C10: for two raw payloads with identical `url` and `provider` raw values
whose titles are strings differing only in leading/trailing whitespace or in
the extent of internal whitespace runs (formally: both whitespace-only, or
both decomposing into the same word sequence with arbitrary non-empty
whitespace separators), normalization yields the same id — the title is
trimmed and whitespace-collapsed (then truncated) before it enters the id
hash. -/
theorem claim10_id_ws_invariant (parseURL : String → Bool) (d1 d2 : JSVal)
    (t1 t2 : String)
    (hu : d1.get "url" = d2.get "url")
    (hp : d1.get "provider" = d2.get "provider")
    (h1 : d1.get "title" = .str t1) (h2 : d2.get "title" = .str t2)
    (heq : SameWordSeq t1 t2) :
    (ArticleData.construct parseURL d1).id = (ArticleData.construct parseURL d2).id := by
  have hcanon : collapseWs (jsTrimList t1.data) = collapseWs (jsTrimList t2.data) := by
    rcases heq with ⟨hw1, hw2⟩ |
      ⟨w1, p1, p2, l1, tr1, l2, tr2, he1, he2, hmap, hg1, hg2⟩
    · rw [allWs_canon hw1, allWs_canon hw2]
    · rw [he1, he2, collapse_trim_title hg1, collapse_trim_title hg2]
      have hmm : p1.map (fun p => (' ' :: p.2 : List Char)) =
          p2.map (fun p => ' ' :: p.2) := by
        have h' := congrArg (List.map (fun w : List Char => ' ' :: w)) hmap
        simpa [List.map_map, Function.comp] using h'
      rw [hmm]
  have hsan : ArticleData.sanitizeString (.str t1) =
      ArticleData.sanitizeString (.str t2) := by
    rw [sanitizeString_formula, sanitizeString_formula, hcanon]
  have htitle : (ArticleData.construct parseURL d1).title =
      (ArticleData.construct parseURL d2).title := by
    show (if (ArticleData.sanitizeString (d1.get "title")).isEmpty
          then "No title available" else ArticleData.sanitizeString (d1.get "title")) =
      (if (ArticleData.sanitizeString (d2.get "title")).isEmpty
          then "No title available" else ArticleData.sanitizeString (d2.get "title"))
    rw [h1, h2, hsan]
  have hurl : (ArticleData.construct parseURL d1).url =
      (ArticleData.construct parseURL d2).url := by
    show ArticleData.validateUrl parseURL (d1.get "url") =
      ArticleData.validateUrl parseURL (d2.get "url")
    rw [hu]
  have hprov : (ArticleData.construct parseURL d1).provider =
      (ArticleData.construct parseURL d2).provider := by
    show ArticleData.providerVal (d1.get "provider") =
      ArticleData.providerVal (d2.get "provider")
    rw [hp]
  show ArticleData.generateId (ArticleData.construct parseURL d1).url
      (ArticleData.construct parseURL d1).provider
      (ArticleData.construct parseURL d1).title =
    (ArticleData.construct parseURL d2).id
  rw [hurl, hprov, htitle]
  rfl

/-- C10 witness: `"  hello \t  world "` and `"hello world"` as titles of
otherwise identical payloads produce the same id. -/
theorem claim10_id_ws_invariant_witness :
    (ArticleData.construct parseAll demoPayloadW1).id =
      (ArticleData.construct parseAll demoPayloadW2).id :=
  claim10_id_ws_invariant parseAll demoPayloadW1 demoPayloadW2
    "  hello \t  world " "hello world" rfl rfl rfl rfl
    (Or.inr ⟨"hello".data, [(" \t  ".data, "world".data)], [(" ".data, "world".data)],
      "  ".data, " ".data, [], [],
      by decide, by decide, by decide,
      by simp only [goodTitle, allWsRun, wordRun]; decide,
      by simp only [goodTitle, allWsRun, wordRun]; decide⟩)

end AgoraLogos
